import Mathlib

/-!
Verification development for the transitmatters/mbta-performance ingestion
pipeline (chalicelib). The Python pipeline is shallowly embedded: pandas
dataframes become lists of structures, one structure field per column;
epoch/zoned timestamps become the integer of their instant in seconds;
nullable columns become Option; pandas float results (means, medians) are
modelled as exact unnormalized fractions, since none of the verified
properties depends on floating-point rounding. Fallible operations
(network fetches, pd.concat of an empty list, Python exceptions) are
modelled with Except.
-/

/-- An exact fraction (numerator/denominator), left unnormalized. Used to
model pandas float64 cells that arise from division (means and medians);
the verified claims only inspect nullness of such cells, never their
rounding. -/
structure Frac where
  num : Int
  den : Int
deriving DecidableEq

/-- Embed an integer cell value into a fraction cell. -/
def intFrac (n : Int) : Frac := ⟨n, 1⟩

/-- Insert an element into a list so that elements on which `le` holds stay
in front. Helper for `sortBy`. -/
def insertSorted {α : Type} (le : α → α → Bool) (x : α) : List α → List α
  | [] => [x]
  | y :: ys => if le x y then x :: y :: ys else y :: insertSorted le x ys

/-- Deterministic comparison sort, modelling pandas sort_values (whose
order among tied keys is unspecified; no verified claim depends on the
order of ties). -/
def sortBy {α : Type} (le : α → α → Bool) (l : List α) : List α :=
  l.foldr (insertSorted le) []

/-- Code-point lexicographic comparison of character lists: how Python
compares strings (and hence how pandas compares string columns). -/
def lexLt : List Char → List Char → Bool
  | [], [] => false
  | [], _ :: _ => true
  | _ :: _, [] => false
  | a :: as, b :: bs =>
    if a.toNat < b.toNat then true
    else if a == b then lexLt as bs
    else false

/-- Python string comparison, s < t. -/
def pyStrLt (s t : String) : Bool := lexLt s.data t.data

/-- Python string comparison, s <= t. -/
def pyStrLe (s t : String) : Bool := !pyStrLt t s

/-- Keep the first occurrence of each element, in encounter order: models
both pandas Series.unique and DataFrame.drop_duplicates. -/
def dedupFirst {α : Type} [DecidableEq α] (l : List α) : List α :=
  l.foldl (fun acc s => if s ∈ acc then acc else acc ++ [s]) []

/-- A decimal digit as a character. -/
def digitChar (d : Nat) : Char :=
  match d with
  | 0 => '0'
  | 1 => '1'
  | 2 => '2'
  | 3 => '3'
  | 4 => '4'
  | 5 => '5'
  | 6 => '6'
  | 7 => '7'
  | 8 => '8'
  | _ => '9'

/-- The k low decimal digits of n, zero padded, most significant first. -/
def padDigits : Nat → Nat → List Char
  | 0, _ => []
  | k + 1, n => padDigits k (n / 10) ++ [digitChar (n % 10)]

/-- Modelled from the spec: format_dateint is defined in chalicelib/date.py,
which is absent from the provided source tree (only its tests remain). Per
those tests, it zero-pad formats an 8-digit date integer as an ISO date
string, e.g. format_dateint 20240207 = "2024-02-07". -/
def format_dateint (d : Nat) : String :=
  ⟨padDigits 4 (d / 10000) ++ '-' :: (padDigits 2 (d / 100 % 100) ++ '-' :: padDigits 2 (d % 100))⟩

/-! ## chalicelib/lamp/constants.py -/

/-- Columns written to the s3 events.csv (S3_COLUMNS in
chalicelib/lamp/constants.py). -/
def S3_COLUMNS : List String :=
  ["service_date", "route_id", "trip_id", "direction_id", "stop_id", "stop_sequence",
   "vehicle_id", "vehicle_label", "event_type", "event_time", "travel_time_seconds",
   "dwell_time_seconds", "headway_seconds", "headway_branch_seconds", "scheduled_tt",
   "scheduled_headway", "scheduled_headway_branch"]

/-- Known aliased stop ids reported by live data, with their canonical
numeric equivalents (STOP_ID_NUMERIC_MAP in chalicelib/lamp/constants.py). -/
def STOP_ID_NUMERIC_MAP : List (String × String) :=
  [("Forest Hills-01", "70001"), ("Forest Hills-02", "70001"),
   ("Braintree-01", "70105"), ("Braintree-02", "70105"),
   ("Oak Grove-01", "70036"), ("Oak Grove-02", "70036"),
   ("Union Square-01", "70504"), ("Union Square-02", "70504")]

/-- Modelled from the spec: RED_LINE_ASHMONT_STOPS is imported from
chalicelib/lamp/constants.py but its definition is absent from the provided
source; the spec describes it as the stop ids exclusive to the Ashmont
branch. Only the membership attested by the repository tests (stop 70085)
is listed; every verified property is independent of the exact membership. -/
def RED_LINE_ASHMONT_STOPS : List String := ["70085"]

/-- Modelled from the spec: RED_LINE_BRAINTREE_STOPS is imported from
chalicelib/lamp/constants.py but its definition is absent from the provided
source; the spec describes it as the stop ids exclusive to the Braintree
branch. Only the membership attested by the repository tests (stop 70095)
is listed; every verified property is independent of the exact membership. -/
def RED_LINE_BRAINTREE_STOPS : List String := ["70095"]

/-! ## chalicelib/lamp/ingest.py: data model

A raw LAMP parquet row (LAMP_COLUMNS). direction_id is kept as an integer
(the astype int16 conversion is the identity in this model), the two epoch
timestamps and the benchmark columns are nullable int64 columns, and extra
carries any additional columns of the raw table (for example the
vehicle_consist column present in the sample data); extra columns survive
until the first S3_COLUMNS projection, which drops them. -/
structure LampRow where
  service_date : Nat
  route_id : String
  trip_id : String
  stop_id : Option String
  direction_id : Int
  stop_sequence : Int
  vehicle_id : String
  vehicle_label : Option String
  move_timestamp : Option Int
  stop_timestamp : Option Int
  travel_time_seconds : Option Int
  dwell_time_seconds : Option Int
  headway_trunk_seconds : Option Int
  headway_branch_seconds : Option Int
  scheduled_travel_time : Option Int
  scheduled_headway_trunk : Option Int
  scheduled_headway_branch : Option Int
  extra : List (String × String)
deriving DecidableEq

/-- A LAMP row after the preprocessing at the top of ingest_pq_file:
service_date has been formatted with format_dateint and the three
COLUMN_RENAME_MAP renames have been applied (headway_trunk_seconds to
headway_seconds, scheduled_headway_trunk to scheduled_headway,
scheduled_travel_time to scheduled_tt). -/
structure PqRow where
  service_date : String
  route_id : String
  trip_id : String
  stop_id : Option String
  direction_id : Int
  stop_sequence : Int
  vehicle_id : String
  vehicle_label : Option String
  move_timestamp : Option Int
  stop_timestamp : Option Int
  travel_time_seconds : Option Int
  dwell_time_seconds : Option Int
  headway_seconds : Option Int
  headway_branch_seconds : Option Int
  scheduled_tt : Option Int
  scheduled_headway : Option Int
  scheduled_headway_branch : Option Int
  extra : List (String × String)
deriving DecidableEq

/-- service_date formatting plus the COLUMN_RENAME_MAP renames of
ingest_pq_file (the astype int16 on direction_id is the identity here). -/
def lamp_to_pq (r : LampRow) : PqRow :=
  { service_date := format_dateint r.service_date
    route_id := r.route_id
    trip_id := r.trip_id
    stop_id := r.stop_id
    direction_id := r.direction_id
    stop_sequence := r.stop_sequence
    vehicle_id := r.vehicle_id
    vehicle_label := r.vehicle_label
    move_timestamp := r.move_timestamp
    stop_timestamp := r.stop_timestamp
    travel_time_seconds := r.travel_time_seconds
    dwell_time_seconds := r.dwell_time_seconds
    headway_seconds := r.headway_trunk_seconds
    headway_branch_seconds := r.headway_branch_seconds
    scheduled_tt := r.scheduled_travel_time
    scheduled_headway := r.scheduled_headway_trunk
    scheduled_headway_branch := r.scheduled_headway_branch
    extra := r.extra }

/-- The stop_id alias replacement of ingest_pq_file
(pq_df.stop_id.replace(STOP_ID_NUMERIC_MAP)). -/
def replace_stop_id_aliases (r : PqRow) : PqRow :=
  { r with stop_id := r.stop_id.map (fun s =>
      (((STOP_ID_NUMERIC_MAP.find? (fun p => p.1 == s)).map (fun p => p.2)).getD s)) }

/-- An output event row: exactly the S3_COLUMNS columns. event_time holds
the instant of the zoned timestamp in epoch seconds (timezone conversion
preserves the instant, and pandas compares zoned datetimes by instant).
scheduled_tt is a fraction because the bucketed-median fallback of the GTFS
enrichment can produce half-integral values. -/
structure Event where
  service_date : String
  route_id : String
  trip_id : String
  direction_id : Int
  stop_id : Option String
  stop_sequence : Int
  vehicle_id : String
  vehicle_label : Option String
  event_type : String
  event_time : Int
  travel_time_seconds : Option Int
  dwell_time_seconds : Option Int
  headway_seconds : Option Int
  headway_branch_seconds : Option Int
  scheduled_tt : Option Frac
  scheduled_headway : Option Int
  scheduled_headway_branch : Option Int
deriving DecidableEq

/-- Render a nullable string cell as csv text (null renders empty). -/
def cellOptStr (v : Option String) : String := v.getD ("")

/-- Render a nullable integer cell as csv text (null renders empty). -/
def cellOptInt (v : Option Int) : String := (v.map toString).getD ("")

/-- Render a nullable fraction cell as csv text (null renders empty). -/
def cellOptFrac (v : Option Frac) : String :=
  (v.map (fun q => toString q.num ++ "/" ++ toString q.den)).getD ("")

/-- The (column name, rendered cell) pairs of an event row, in S3_COLUMNS
order: the dataframe produced by the final S3_COLUMNS projection. -/
def Event.columns (e : Event) : List (String × String) :=
  [("service_date", e.service_date), ("route_id", e.route_id), ("trip_id", e.trip_id),
   ("direction_id", toString e.direction_id), ("stop_id", cellOptStr e.stop_id),
   ("stop_sequence", toString e.stop_sequence), ("vehicle_id", e.vehicle_id),
   ("vehicle_label", cellOptStr e.vehicle_label), ("event_type", e.event_type),
   ("event_time", toString e.event_time),
   ("travel_time_seconds", cellOptInt e.travel_time_seconds),
   ("dwell_time_seconds", cellOptInt e.dwell_time_seconds),
   ("headway_seconds", cellOptInt e.headway_seconds),
   ("headway_branch_seconds", cellOptInt e.headway_branch_seconds),
   ("scheduled_tt", cellOptFrac e.scheduled_tt),
   ("scheduled_headway", cellOptInt e.scheduled_headway),
   ("scheduled_headway_branch", cellOptInt e.scheduled_headway_branch)]

/-- Column lookup on an event row: defined for exactly the S3_COLUMNS
names. -/
def Event.column (e : Event) (c : String) : Option String :=
  ((e.columns.find? (fun p => p.1 == c)).map (fun p => p.2))

/-! ## chalicelib/lamp/ingest.py: _process_arrival_departure_times -/

/-- The ARRIVAL row a raw row explodes into (event_time = stop_timestamp),
projected to S3_COLUMNS. -/
def mkArrivalEvent (r : PqRow) (t : Int) : Event :=
  { service_date := r.service_date
    route_id := r.route_id
    trip_id := r.trip_id
    direction_id := r.direction_id
    stop_id := r.stop_id
    stop_sequence := r.stop_sequence
    vehicle_id := r.vehicle_id
    vehicle_label := r.vehicle_label
    event_type := "ARR"
    event_time := t
    travel_time_seconds := r.travel_time_seconds
    dwell_time_seconds := r.dwell_time_seconds
    headway_seconds := r.headway_seconds
    headway_branch_seconds := r.headway_branch_seconds
    scheduled_tt := r.scheduled_tt.map intFrac
    scheduled_headway := r.scheduled_headway
    scheduled_headway_branch := r.scheduled_headway_branch }

/-- The DEPARTURE row a raw row explodes into (event_time = move_timestamp).
All columns are the departure row's own (the merge suffix _curr), except
stop_id which is the as-of matched previous arrival's (suffix _prev). -/
def mkDepartureEvent (r : PqRow) (t : Int) (prevStop : Option String) : Event :=
  { service_date := r.service_date
    route_id := r.route_id
    trip_id := r.trip_id
    direction_id := r.direction_id
    stop_id := prevStop
    stop_sequence := r.stop_sequence
    vehicle_id := r.vehicle_id
    vehicle_label := r.vehicle_label
    event_type := "DEP"
    event_time := t
    travel_time_seconds := r.travel_time_seconds
    dwell_time_seconds := r.dwell_time_seconds
    headway_seconds := r.headway_seconds
    headway_branch_seconds := r.headway_branch_seconds
    scheduled_tt := r.scheduled_tt.map intFrac
    scheduled_headway := r.scheduled_headway
    scheduled_headway_branch := r.scheduled_headway_branch }

/-- The by-columns of the merge_asof in _process_arrival_departure_times:
service_date, route_id, trip_id, vehicle_id, direction_id. -/
def sameMergeByKey (a d : PqRow) : Bool :=
  a.service_date == d.service_date && a.route_id == d.route_id &&
    a.trip_id == d.trip_id && a.vehicle_id == d.vehicle_id &&
    a.direction_id == d.direction_id

/-- Explode raw rows into ARRIVAL and DEPARTURE events and re-point each
departure at the stop it left. The rows are sorted by stop_sequence; the
arrival rows are those with a non-null stop_timestamp and the departure
rows those with a non-null move_timestamp. pd.merge_asof with
direction backward and allow_exact_matches False assigns each departure
the last arrival row, in the stop_sequence-sorted order, whose by-columns
match and whose stop_sequence is strictly smaller; its stop_id (which may
itself be null) becomes the departure's stop_id, and no match yields null. -/
def _process_arrival_departure_times (pq_df : List PqRow) : List Event :=
  let sorted := sortBy (fun a b => a.stop_sequence ≤ b.stop_sequence) pq_df
  let arrRows := sorted.filter (fun r => r.stop_timestamp.isSome)
  let arr_df := sorted.filterMap (fun r => r.stop_timestamp.map (fun t => mkArrivalEvent r t))
  let dep_df := sorted.filterMap (fun r => r.move_timestamp.map (fun t =>
    mkDepartureEvent r t
      (((arrRows.filter (fun a => sameMergeByKey a r && a.stop_sequence < r.stop_sequence)).getLast?).bind
        (fun a => a.stop_id))))
  arr_df ++ dep_df

/-! ## chalicelib/lamp/ingest.py: branch derivation -/

/-- An event row carrying the derived branch_route_id column. -/
structure BEvent where
  event : Event
  branch_route_id : String
deriving DecidableEq

/-- Python str.startswith on explicit character lists. -/
def py_startswith_chars : List Char → List Char → Bool
  | [], _ => true
  | _ :: _, [] => false
  | p :: ps, c :: cs => p == c && py_startswith_chars ps cs

/-- Python s.startswith(m). -/
def py_startswith (s m : String) : Bool := py_startswith_chars m.data s.data

/-- The per-trip branch classifier shared verbatim by the inner
get_branch_for_trip functions of _derive_lamp_branch_route_id and
_derive_gtfs_branch_route_id: route_id is the first row's route_id and
stop_ids the set of stops the trip visits. -/
def get_branch_for_trip (route_id : String) (stop_ids : List String) : String :=
  if route_id == "Red" then
    let has_ashmont := stop_ids.any (fun s => RED_LINE_ASHMONT_STOPS.contains s)
    let has_braintree := stop_ids.any (fun s => RED_LINE_BRAINTREE_STOPS.contains s)
    if has_ashmont && !has_braintree then "Red-A"
    else if has_braintree && !has_ashmont then "Red-B"
    else route_id
  else route_id

/-- Derive branch_route_id for LAMP trips: group the events by trip_id,
classify each trip from the branch-exclusive stops it visits, and merge the
result back onto every row of the trip (the groupby/apply/merge of
_derive_lamp_branch_route_id). Null stop ids are skipped; the astype(str)
in the source turns them into the text nan, which belongs to neither
branch list, so the classification agrees. -/
def _derive_lamp_branch_route_id (pq_df : List Event) : List BEvent :=
  pq_df.map (fun e =>
    { event := e
      branch_route_id :=
        get_branch_for_trip
          (((pq_df.filter (fun e2 => e2.trip_id == e.trip_id)).head?.map
            (fun r => r.route_id)).getD (""))
          ((pq_df.filter (fun e2 => e2.trip_id == e.trip_id)).filterMap
            (fun r => r.stop_id)) })

/-! ## chalicelib/gtfs.py -/

/-- A GTFS stop_times record (the StopTime model queried from the sqlite
feed). -/
structure StopTime where
  trip_id : String
  stop_id : String
  arrival_time : Int
deriving DecidableEq

/-- A GTFS trips record (the Trip model joined in the query). -/
structure Trip where
  trip_id : String
  route_id : String
  direction_id : Int
deriving DecidableEq

/-- One row of the dataframe fetch_stop_times_from_gtfs returns. -/
structure GtfsRow where
  trip_id : String
  stop_id : String
  arrival_time : Int
  route_id : String
  direction_id : Int
deriving DecidableEq

def MAX_QUERY_DEPTH : Nat := 900

/-- One batched query: stop-time rows whose trip_id is among the batch ids,
inner joined with the trips table on trip_id. -/
def query_stop_times_batch (stop_times : List StopTime) (trips : List Trip)
    (batch : List String) : List GtfsRow :=
  (stop_times.filter (fun st => batch.contains st.trip_id)).flatMap (fun st =>
    (trips.filter (fun t => t.trip_id == st.trip_id)).map (fun t =>
      { trip_id := st.trip_id, stop_id := st.stop_id, arrival_time := st.arrival_time,
        route_id := t.route_id, direction_id := t.direction_id }))

/-- Consecutive slices of size k, as produced by iterating
range(0, len(l), k) and slicing l[start : start + k]. The fuel argument is
the list length, which suffices because every step drops at least one
element when k is positive (the only way the function is used, with
k = MAX_QUERY_DEPTH). -/
def chunksOfAux : Nat → Nat → List String → List (List String)
  | 0, _, _ => []
  | _ + 1, _, [] => []
  | fuel + 1, k, x :: xs => (x :: xs).take k :: chunksOfAux fuel k ((x :: xs).drop k)

def chunksOf (k : Nat) (l : List String) : List (List String) := chunksOfAux l.length k l

/-- pd.concat raises a ValueError when handed an empty list of frames. -/
def pd_concat {α : Type} (dfs : List (List α)) : Except String (List α) :=
  if dfs.isEmpty then .error ("No objects to concatenate") else .ok dfs.flatten

/-- fetch_stop_times_from_gtfs: the feed argument models
feed.download_or_build(), which raises on a download or build failure
(gtfs.py) and otherwise provides the relational store; the trip ids are
then queried in batches of at most MAX_QUERY_DEPTH and the batch results
concatenated. -/
def fetch_stop_times_from_gtfs (feed : Except String (List StopTime × List Trip))
    (trip_ids : List String) : Except String (List GtfsRow) := do
  let (stop_times, trips) ← feed
  pd_concat ((chunksOf MAX_QUERY_DEPTH trip_ids).map (query_stop_times_batch stop_times trips))

/-! ## chalicelib/lamp/ingest.py: _recalculate_fields_from_gtfs -/

/-- A GTFS row with its derived branch_route_id and scheduled_tt
(arrival_time minus the trip's minimal arrival_time). -/
structure GtfsEnr where
  trip_id : String
  stop_id : String
  arrival_time : Int
  route_id : String
  direction_id : Int
  branch_route_id : String
  scheduled_tt : Int
deriving DecidableEq

/-- Derive branch_route_id for GTFS trips (same grouping and classifier as
the LAMP variant; GTFS stop ids are non-null). -/
def _derive_gtfs_branch_route_id (gtfs_stops : List GtfsRow) : List (GtfsRow × String) :=
  gtfs_stops.map (fun g =>
    (g, get_branch_for_trip
      (((gtfs_stops.filter (fun g2 => g2.trip_id == g.trip_id)).head?.map
        (fun r => r.route_id)).getD (""))
      ((gtfs_stops.filter (fun g2 => g2.trip_id == g.trip_id)).map (fun r => r.stop_id))))

/-- scheduled_tt per GTFS row: arrival_time minus the trip's minimal
arrival_time (the groupby transform min in the source). -/
def gtfs_with_scheduled_tt (gtfsB : List (GtfsRow × String)) : List GtfsEnr :=
  gtfsB.map (fun p =>
    let m := (((gtfsB.filter (fun q => q.1.trip_id == p.1.trip_id)).map
      (fun q => q.1.arrival_time)).min?).getD p.1.arrival_time
    { trip_id := p.1.trip_id, stop_id := p.1.stop_id, arrival_time := p.1.arrival_time,
      route_id := p.1.route_id, direction_id := p.1.direction_id,
      branch_route_id := p.2, scheduled_tt := p.1.arrival_time - m })

/-- A scheduled-trip candidate for the merge_asof: the projection of the
GTFS table onto match_columns plus arrival_time and trip_id, after
drop_duplicates. -/
structure SchedCand where
  route_id : String
  direction_id : Int
  stop_id : String
  branch_route_id : String
  arrival_time : Int
  trip_id : String
deriving DecidableEq

def sched_candidates (gtfsE : List GtfsEnr) : List SchedCand :=
  dedupFirst (gtfsE.map (fun g =>
    { route_id := g.route_id, direction_id := g.direction_id, stop_id := g.stop_id,
      branch_route_id := g.branch_route_id, arrival_time := g.arrival_time,
      trip_id := g.trip_id }))

/-- The first row of the trip attaining its minimal event_time
(groupby trip_id, event_time.idxmin). -/
def trip_start_event (lampB : List BEvent) (t : String) : Option BEvent :=
  (lampB.filter (fun be => be.event.trip_id == t)).foldl (fun acc be =>
    match acc with
    | none => some be
    | some b => if be.event.event_time < b.event.event_time then some be else acc) none

/-- The merge_asof direction nearest lookup: the candidate with minimal
absolute distance in arrival_time; among equal distances the earlier
(backward) candidate wins, which the fold realizes because the candidate
list is sorted ascending by arrival_time and only a strictly smaller
distance replaces the current best. -/
def nearest_candidate (t : Int) (cands : List SchedCand) : Option SchedCand :=
  cands.foldl (fun acc c =>
    match acc with
    | none => some c
    | some b =>
      if (c.arrival_time - t).natAbs < (b.arrival_time - t).natAbs then some c else acc) none

/-- The median of an integer list, as pandas computes it: middle element of
the sorted values for odd length, mean of the two middle elements for even
length. -/
def median_int (l : List Int) : Frac :=
  let s := sortBy (fun a b => a ≤ b) l
  let n := s.length
  if n % 2 = 1 then intFrac (s.getD (n / 2) 0)
  else { num := s.getD (n / 2 - 1) 0 + s.getD (n / 2) 0, den := 2 }

/-- The bucketed fallback: median scheduled_tt of the GTFS rows for the
route/direction/stop in the 30-minute bucket (arrival_time // 1800), or
null when the bucketed median table has no such key. -/
def bucketed_median_tt (gtfsE : List GtfsEnr) (route_id : String) (direction_id : Int)
    (stop_id : String) (time_bucket : Int) : Option Frac :=
  let group := gtfsE.filter (fun g =>
    g.route_id == route_id && g.direction_id == direction_id && g.stop_id == stop_id &&
      g.arrival_time.fdiv 1800 == time_bucket)
  if group.isEmpty then none else some (median_int (group.map (fun g => g.scheduled_tt)))

/-- Enrich the day's events with GTFS schedule information. loc maps a
naive local wall-clock offset in seconds since the service date's midnight
to the instant's epoch seconds (so loc 0 is
pd.Timestamp(service_date).tz_localize(EASTERN_TIME)). The stages mirror
the source: fetch and sort the GTFS stop times for the day's trips, derive
branch ids on both sides, compute per-trip scheduled_tt offsets, match each
live trip's start to the nearest scheduled start over
(route_id, direction_id, stop_id, branch_route_id), left-merge the matched
scheduled trip's scheduled_tt onto each event by (scheduled trip, stop),
and fill still-missing scheduled_tt from the bucketed medians. -/
def _recalculate_pure (loc : Int → Int) (gtfs_stops0 : List GtfsRow)
    (pq_df : List Event) : List Event :=
  let gtfs_stops := sortBy (fun a b => a.arrival_time ≤ b.arrival_time) gtfs_stops0
  let lampB := _derive_lamp_branch_route_id pq_df
  let gtfsE := gtfs_with_scheduled_tt (_derive_gtfs_branch_route_id gtfs_stops)
  let cands := sched_candidates gtfsE
  let sorted_trip_ids := sortBy pyStrLe (dedupFirst (pq_df.map (fun e => e.trip_id)))
  let route_starts := sorted_trip_ids.filterMap (fun t =>
    (trip_start_event lampB t).map (fun be => (be, be.event.event_time - loc 0)))
  let route_starts := sortBy (fun a b => a.2 ≤ b.2) route_starts
  let trip_id_map : List (String × Option String) := route_starts.map (fun p =>
    (p.1.event.trip_id,
     (nearest_candidate p.2 (cands.filter (fun c =>
        c.route_id == p.1.event.route_id && c.direction_id == p.1.event.direction_id &&
          some c.stop_id == p.1.event.stop_id &&
          c.branch_route_id == p.1.branch_route_id))).map (fun c => c.trip_id)))
  let merged : List (BEvent × Option Frac) := lampB.flatMap (fun be =>
    let sched := (trip_id_map.find? (fun q => q.1 == be.event.trip_id)).bind (fun q => q.2)
    let ms := gtfsE.filter (fun g => some g.trip_id == sched && some g.stop_id == be.event.stop_id)
    if ms.isEmpty then [(be, none)]
    else ms.map (fun g => (be, some (intFrac g.scheduled_tt))))
  let withFallback := merged.map (fun p =>
    match p.2 with
    | some tt => (p.1, some tt)
    | none =>
      match p.1.event.stop_id with
      | none => (p.1, (none : Option Frac))
      | some s =>
        (p.1, bucketed_median_tt gtfsE p.1.event.route_id p.1.event.direction_id s
          ((p.1.event.event_time - loc 0).fdiv 1800)))
  withFallback.map (fun p => { p.1.event with scheduled_tt := p.2 })

/-- Enrichment entry point: fetch the GTFS stop times for the day's unique
trips (propagating any feed failure) and run the pure enrichment on them. -/
def _recalculate_fields_from_gtfs (loc : Int → Int)
    (feed : Except String (List StopTime × List Trip)) (pq_df : List Event) :
    Except String (List Event) := do
  let gtfs_stops0 ← fetch_stop_times_from_gtfs feed
    (dedupFirst (pq_df.map (fun e => e.trip_id)))
  pure (_recalculate_pure loc gtfs_stops0 pq_df)

/-! ## chalicelib/lamp/ingest.py: _average_scheduled_headways -/

/-- Round s / n to the nearest multiple of 10, ties to the even multiple
(Series.round(-1) on the bucket mean). -/
def roundHalfEvenTo10 (s : Int) (n : Nat) : Int :=
  let d : Int := 10 * (n : Int)
  let q := s.fdiv d
  let r := s - q * d
  if 2 * r < d then 10 * q
  else if d < 2 * r then 10 * (q + 1)
  else if q % 2 = 0 then 10 * q else 10 * (q + 1)

/-- Whether an event falls in the i-th 30-minute bucket: bucket_start <=
event_time < bucket_end, with both naive edges localized through loc. -/
def in_bucket (loc : Int → Int) (i : Nat) (e : Event) : Bool :=
  loc (1800 * (i : Int)) ≤ e.event_time && e.event_time < loc (1800 * (i : Int) + 1800)

/-- Bucket scheduled headways into 30 minute buckets and replace each
event's scheduled_headway with its bucket's per (route_id, direction_id,
stop_id) mean, rounded to the nearest 10 seconds. The bucket starts are the
97 timestamps of pd.date_range(midnight, midnight + 48h, freq 30min); each
naive bucket edge is localized through loc (tz_localize with ambiguous=True
and nonexistent=shift_forward, so loc is monotone but need not be strictly
so), and a bucket keeps the events with bucket_start <= event_time <
bucket_end. The groupby drops rows with a null stop_id from every group, so
the left merge leaves their scheduled_headway null; a group's mean is null
exactly when the group has no non-null value. -/
def _average_scheduled_headways (loc : Int → Int) (pq_df : List Event) : List Event :=
  (List.range 97).flatMap (fun i =>
    let filtered_trips := pq_df.filter (in_bucket loc i)
    filtered_trips.map (fun e =>
      match e.stop_id with
      | none => { e with scheduled_headway := none }
      | some _ =>
        let group := filtered_trips.filter (fun e2 =>
          e2.route_id == e.route_id && e2.direction_id == e.direction_id &&
            e2.stop_id == e.stop_id)
        let vals := group.filterMap (fun e2 => e2.scheduled_headway)
        { e with scheduled_headway :=
            if vals.isEmpty then none
            else some (roundHalfEvenTo10 vals.sum vals.length) }))

/-! ## chalicelib/lamp/ingest.py: ingest_pq_file and ingest_lamp_data -/

/-- Reserved markers of trips that are not revenue producing
(TRIP_IDS_TO_DROP). -/
def TRIP_IDS_TO_DROP : List String := ["NONREV-"]

/-- Drop rows whose trip_id starts with a reserved marker, but only when
the (formatted) service_date is before the formatted cutoff 20231130. -/
def drop_nonrevenue (pq_df : List PqRow) : List PqRow :=
  let cutoff_date := format_dateint 20231130
  pq_df.filter (fun r =>
    !(TRIP_IDS_TO_DROP.any (fun m => py_startswith r.trip_id m) &&
      pyStrLt r.service_date cutoff_date))

/-- Process and transform columns for the full day's events: preprocess
(direction astype, service_date formatting, renames, stop alias
replacement), drop pre-cutoff non-revenue trips, explode arrivals and
departures, drop events whose stop_id ended null, enrich from GTFS, average
scheduled headways, and sort by event_time. -/
def ingest_pq_file (loc : Int → Int) (feed : Except String (List StopTime × List Trip))
    (pq_df : List LampRow) : Except String (List Event) := do
  let pq1 := (pq_df.map lamp_to_pq).map replace_stop_id_aliases
  let pq2 := drop_nonrevenue pq1
  let processed0 := _process_arrival_departure_times pq2
  let processed1 := processed0.filter (fun e => e.stop_id.isSome)
  let processed2 ← _recalculate_fields_from_gtfs loc feed processed1
  let processed3 := _average_scheduled_headways loc processed2
  pure (sortBy (fun a b => a.event_time ≤ b.event_time) processed3)

/-- The two failure classes ingest_lamp_data distinguishes when fetching
the LAMP parquet file: a ValueError (missing file or non-200 status) and
any other exception. -/
inductive FetchErr where
  | valueError (msg : String)
  | unexpected (msg : String)
deriving DecidableEq

/-- ingest_lamp_data: a fetch ValueError is logged and the function
returns, skipping the day (.ok none: nothing uploaded, no exception); any
other fetch error is re-raised; an error from ingest_pq_file (for example a
GTFS feed download or build failure during enrichment) is logged and
re-raised, aborting the day with nothing uploaded (.error); on success the
events are grouped by stop and uploaded (.ok (some events)). -/
def ingest_lamp_data (loc : Int → Int) (feed : Except String (List StopTime × List Trip))
    (fetched : Except FetchErr (List LampRow)) : Except String (Option (List Event)) :=
  match fetched with
  | .error (.valueError _) => .ok none
  | .error (.unexpected m) => .error m
  | .ok pq_df =>
    match ingest_pq_file loc feed pq_df with
    | .error e => .error e
    | .ok evs => .ok (some evs)

/-! ## chalicelib/date.py (absent from the source tree; modelled from the
spec and from chalicelib/tests/test_date.py) -/

/-- A calendar date. -/
structure PDate where
  year : Nat
  month : Nat
  day : Nat
deriving DecidableEq

def isLeapYear (y : Nat) : Bool :=
  y % 4 == 0 && (y % 100 != 0 || y % 400 == 0)

def daysInMonth (y m : Nat) : Nat :=
  if m == 2 then (if isLeapYear y then 29 else 28)
  else if m == 4 || m == 6 || m == 9 || m == 11 then 30
  else 31

/-- The previous calendar date. -/
def prevCalendarDate (d : PDate) : PDate :=
  if 1 < d.day then ⟨d.year, d.month, d.day - 1⟩
  else if 1 < d.month then ⟨d.year, d.month - 1, daysInMonth d.year (d.month - 1)⟩
  else ⟨d.year - 1, 12, 31⟩

/-- Modelled from the spec: service_date is defined in chalicelib/date.py,
which is absent from the provided source tree (only its tests remain). Per
spec 4.1 and the tests, an instant whose local wall clock lies between
00:00:00 and 02:59:59 belongs to the previous calendar date's service day
and 03:00:00 onward belongs to the instant's own calendar date. The
instant is given as its local calendar date plus the local wall-clock
seconds since that date's midnight, which also fixes the behavior across
daylight-saving transitions (the boundary is wall-clock 03:00 in the
offset then in effect). -/
def service_date (d : PDate) (secondsIntoDay : Nat) : PDate :=
  if secondsIntoDay < 3 * 3600 then prevCalendarDate d else d

/-! ## chalicelib/lamp/backfill/main.py -/

/-- The per-date loop of backfill_all_in_index, with Python local-variable
semantics made explicit: fetch failures are printed but the loop body then
falls through to processing, so the pq_df variable still holds the
previous iteration's dataframe (or is unbound on the first iteration,
which raises a NameError that aborts the run). process stands for
ingest_pq_file plus the parallel upload, which the loop calls outside any
try block. -/
def backfill_loop {α β : Type} (fetch : Nat → Except String α) (process : α → Nat → β) :
    List Nat → Option α → List β → Except String (List β)
  | [], _, acc => .ok acc.reverse
  | d :: rest, pq_df, acc =>
    match fetch d, pq_df with
    | .ok t, _ => backfill_loop fetch process rest (some t) (process t d :: acc)
    | .error _, some t => backfill_loop fetch process rest (some t) (process t d :: acc)
    | .error _, none => .error ("NameError: name pq_df is not defined")

/-- backfill_all_in_index: iterate over the index dates from most recent to
oldest (dates[::-1]) and fetch and process each date. -/
def backfill_all_in_index {α β : Type} (dates : List Nat) (fetch : Nat → Except String α)
    (process : α → Nat → β) : Except String (List β) :=
  backfill_loop fetch process dates.reverse none []

/-! ## chalicelib/historic/process.py: to_disk and to_disk_bus -/

/-- A historic event row as grouped by to_disk: its service date (grouped
monthly) and stop_id, with the remaining csv cells opaque. -/
structure HistRow where
  service_year : Nat
  service_month : Nat
  service_day : Nat
  stop_id : String
  rest : List String
deriving DecidableEq

/-- A bus event row as grouped by to_disk_bus. -/
structure BusRow where
  service_year : Nat
  service_month : Nat
  service_day : Nat
  stop_id : String
  direction_id : Int
  route_id : String
  rest : List String
deriving DecidableEq

/-- A written per-partition file. DEFLATE is deterministic, so the bytes of
a gzipped csv are a function of the gzip header's embedded modification
time and of the csv payload; the artifact records exactly that pair. -/
inductive CsvArtifact (ρ : Type) where
  | gzipped (mtime : Nat) (rows : List ρ)
  | plain (rows : List ρ)
deriving DecidableEq

/-- df.to_csv with gzip compression: when the compression options pin no
mtime, pandas (via the gzip module) embeds the current wall-clock time in
the gzip header; a pinned mtime is embedded as given. -/
def gzip_to_csv {ρ : Type} (now : Nat) (mtime : Option Nat) (rows : List ρ) : CsvArtifact ρ :=
  .gzipped (mtime.getD now) rows

/-- groupby key order for to_disk: month label then stop_id. -/
def histKeyLe (k1 k2 : (Nat × Nat) × String) : Bool :=
  k1.1.1 < k2.1.1 || (k1.1.1 == k2.1.1 &&
    (k1.1.2 < k2.1.2 || (k1.1.2 == k2.1.2 && pyStrLe k1.2 k2.2)))

/-- to_disk: group the events by (month of service_date, stop_id) and
write one gzipped csv per group, pinning the gzip header mtime to 0 for
determinism (or an uncompressed csv when nozip). now is the wall clock at
write time. -/
def to_disk (now : Nat) (df : List HistRow) (nozip : Bool) :
    List (String × CsvArtifact HistRow) :=
  let keys := sortBy histKeyLe (dedupFirst (df.map (fun r =>
    ((r.service_year, r.service_month), r.stop_id))))
  keys.map (fun k =>
    let events := df.filter (fun r =>
      r.service_year == k.1.1 && r.service_month == k.1.2 && r.stop_id == k.2)
    let fname := "Events/monthly-data/" ++ k.2 ++ "/Year=" ++ toString k.1.1 ++
      "/Month=" ++ toString k.1.2 ++ "/events.csv.gz"
    (fname, if nozip then CsvArtifact.plain events else gzip_to_csv now (some 0) events))

/-- groupby key order for to_disk_bus: month label, stop_id, direction_id,
route_id. -/
def busKeyLe (k1 k2 : ((Nat × Nat) × String) × Int × String) : Bool :=
  k1.1.1.1 < k2.1.1.1 || (k1.1.1.1 == k2.1.1.1 &&
    (k1.1.1.2 < k2.1.1.2 || (k1.1.1.2 == k2.1.1.2 &&
      (pyStrLt k1.1.2 k2.1.2 || (k1.1.2 == k2.1.2 &&
        (k1.2.1 < k2.2.1 || (k1.2.1 == k2.2.1 && pyStrLe k1.2.2 k2.2.2)))))))

/-- to_disk_bus: group the events by (month of service_date, stop_id,
direction_id, route_id) and write one gzipped csv per group under the
monthly-bus-data layout, pinning the gzip header mtime to 0. -/
def to_disk_bus (now : Nat) (df : List BusRow) (nozip : Bool) :
    List (String × CsvArtifact BusRow) :=
  let keys := sortBy busKeyLe (dedupFirst (df.map (fun r =>
    (((r.service_year, r.service_month), r.stop_id), (r.direction_id, r.route_id)))))
  keys.map (fun k =>
    let events := df.filter (fun r =>
      r.service_year == k.1.1.1 && r.service_month == k.1.1.2 && r.stop_id == k.1.2 &&
        r.direction_id == k.2.1 && r.route_id == k.2.2)
    let fname := "Events/monthly-bus-data/" ++ k.2.2 ++ "-" ++ toString k.2.1 ++ "-" ++
      k.1.2 ++ "/Year=" ++ toString k.1.1.1 ++ "/Month=" ++ toString k.1.1.2 ++
      "/events.csv.gz"
    (fname, if nozip then CsvArtifact.plain events else gzip_to_csv now (some 0) events))

/-- The arrival rows that qualify as the as-of match for a departure row d:
rows with a non-null stop_timestamp that share d's merge by-columns and
have a strictly smaller stop_sequence. -/
def qualifying_arrivals (pq_df : List PqRow) (d : PqRow) : List PqRow :=
  pq_df.filter (fun a =>
    (sameMergeByKey a d && a.stop_sequence < d.stop_sequence) && a.stop_timestamp.isSome)

/-! ## Concrete fixtures used by witnesses and counterexamples -/

/-- The instant of 2024-02-07 00:00:00 US/Eastern in epoch seconds (EST,
UTC-5). -/
def eastern_midnight_feb07_2024 : Int := 1707282000

/-- The concrete localization for service date 2024-02-07: the whole
48.5-hour bucket window lies in EST (UTC-5), so localizing a naive offset
of s seconds past midnight yields the midnight instant plus s. -/
def est_loc_feb07_2024 : Int → Int := fun s => eastern_midnight_feb07_2024 + s

/-- A baseline preprocessed LAMP row for fixtures. -/
def samplePqRow : PqRow :=
  { service_date := "2024-02-07"
    route_id := "Orange"
    trip_id := "t1"
    stop_id := some ("70001")
    direction_id := 0
    stop_sequence := 10
    vehicle_id := "v1"
    vehicle_label := some ("1201")
    move_timestamp := none
    stop_timestamp := none
    travel_time_seconds := some 60
    dwell_time_seconds := some 30
    headway_seconds := some 300
    headway_branch_seconds := some 300
    scheduled_tt := some 55
    scheduled_headway := some 290
    scheduled_headway_branch := some 290
    extra := [("vehicle_consist", "")] }

/-- Fixture: an arrival at stop 70001, stop_sequence 10. -/
def c1SampleArrival : PqRow :=
  { samplePqRow with stop_timestamp := some 900 }

/-- Fixture: a departure recorded at stop_sequence 20 of the same trip and
vehicle. -/
def c1SampleDeparture : PqRow :=
  { samplePqRow with
      stop_id := some ("70003")
      stop_sequence := 20
      move_timestamp := some 1000 }

/-- A baseline event row for fixtures. -/
def sampleEventBase : Event :=
  { service_date := "2024-02-07"
    route_id := "Orange"
    trip_id := "t1"
    direction_id := 0
    stop_id := some ("70036")
    stop_sequence := 10
    vehicle_id := "v1"
    vehicle_label := some ("1201")
    event_type := "ARR"
    event_time := eastern_midnight_feb07_2024 + 3600
    travel_time_seconds := some 60
    dwell_time_seconds := some 30
    headway_seconds := some 300
    headway_branch_seconds := some 300
    scheduled_tt := some (intFrac 55)
    scheduled_headway := some 290
    scheduled_headway_branch := some 290 }

/-- Fixture: an event one second before the service date's local midnight,
hence outside every 30-minute bucket of the 48-hour window. -/
def c3OutOfWindowEvent : Event :=
  { sampleEventBase with event_time := eastern_midnight_feb07_2024 - 1 }

/-- Fixture: an in-window event with a null stop_id but a non-null
scheduled_headway. -/
def c3NullStopEvent : Event :=
  { sampleEventBase with
      stop_id := none
      scheduled_headway := some 300 }

/-- Fixture: an ordinary in-window event. -/
def c3WitnessEvent : Event := sampleEventBase

/-- Strict calendar order on (year, month, day) triples. -/
def dateBefore (y1 m1 d1 y2 m2 d2 : Nat) : Prop :=
  y1 < y2 ∨ (y1 = y2 ∧ (m1 < m2 ∨ (m1 = m2 ∧ d1 < d2)))

/-- Fixture: a marker (non-revenue) row dated 2023-11-29, the day before
the cutoff. -/
def c4SampleRow : PqRow :=
  { samplePqRow with trip_id := "NONREV-123", service_date := "2023-11-29" }

/-- Fixture: a two-stop Red Line trip visiting trunk stop 70061 and
Ashmont-branch stop 70085. -/
def c5TripEvents : List Event :=
  [{ sampleEventBase with route_id := "Red", stop_id := some ("70061") },
   { sampleEventBase with route_id := "Red", stop_id := some ("70085") }]

/-- Fixture: the first derived row of the branch derivation on the Ashmont
trip fixture. -/
def c5Be : BEvent :=
  (_derive_lamp_branch_route_id c5TripEvents).headD ⟨sampleEventBase, ""⟩

/-- Fixture: a raw LAMP row with an arrival timestamp. -/
def c2SampleLampRow : LampRow :=
  { service_date := 20240207
    route_id := "Orange"
    trip_id := "t1"
    stop_id := some ("70001")
    direction_id := 0
    stop_sequence := 10
    vehicle_id := "v1"
    vehicle_label := some ("1201")
    move_timestamp := none
    stop_timestamp := some 1100
    travel_time_seconds := some 60
    dwell_time_seconds := some 30
    headway_trunk_seconds := some 300
    headway_branch_seconds := some 300
    scheduled_travel_time := some 55
    scheduled_headway_trunk := some 290
    scheduled_headway_branch := some 290
    extra := [("vehicle_consist", "")] }

/-- Fixture: a one-trip schedule store. -/
def c10Feed : Except String (List StopTime × List Trip) :=
  .ok ([⟨"t1", "70001", 500⟩], [⟨"t1", "Orange", 0⟩])

/-- Fixture: the finalized output of ingest_pq_file on the one-row sample
(the identity localization stands for a service date whose window needs no
offset). -/
def c10SampleOut : List Event :=
  match ingest_pq_file (fun s => s) c10Feed [c2SampleLampRow] with
  | .ok evs => evs
  | .error _ => []
theorem mem_insertSorted {α : Type} (le : α → α → Bool) (x : α) (l : List α) (z : α) :
    z ∈ insertSorted le x l ↔ z = x ∨ z ∈ l := by
  induction l with
  | nil => simp [insertSorted]
  | cons y ys ih =>
    by_cases h : le x y = true
    · simp [insertSorted, h]
    · simp only [insertSorted, h]
      simp only [Bool.false_eq_true, if_false, List.mem_cons, ih]
      tauto
theorem perm_insertSorted {α : Type} (le : α → α → Bool) (x : α) (l : List α) :
    (insertSorted le x l).Perm (x :: l) := by
  induction l with
  | nil => simp [insertSorted]
  | cons y ys ih =>
    by_cases h : le x y = true
    · simp [insertSorted, h]
    · simp only [insertSorted, h, Bool.false_eq_true, if_false]
      exact (ih.cons y).trans (List.Perm.swap x y ys)
theorem sortBy_perm {α : Type} (le : α → α → Bool) (l : List α) :
    (sortBy le l).Perm l := by
  induction l with
  | nil => simp [sortBy]
  | cons x xs ih =>
    have h1 : (sortBy le (x :: xs)) = insertSorted le x (sortBy le xs) := rfl
    rw [h1]
    exact (perm_insertSorted le x (sortBy le xs)).trans (ih.cons x)
theorem pairwise_insertSorted {α : Type} (le : α → α → Bool)
    (htrans : ∀ a b c, le a b = true → le b c = true → le a c = true)
    (htotal : ∀ a b, le a b = true ∨ le b a = true)
    (x : α) (l : List α) (hl : List.Pairwise (fun a b => le a b = true) l) :
    List.Pairwise (fun a b => le a b = true) (insertSorted le x l) := by
  induction l with
  | nil => simp [insertSorted]
  | cons y ys ih =>
    obtain ⟨hy, hys⟩ := List.pairwise_cons.mp hl
    by_cases h : le x y = true
    · simp only [insertSorted, h, if_true]
      exact List.Pairwise.cons
        (by
          intro z hz
          rcases List.mem_cons.mp hz with rfl | hz2
          · exact h
          · exact htrans x y z h (hy z hz2))
        (List.Pairwise.cons hy hys)
    · simp only [insertSorted, h, Bool.false_eq_true, if_false]
      refine List.Pairwise.cons ?_ (ih hys)
      intro z hz
      rcases (mem_insertSorted le x ys z).mp hz with hzx | hz2
      · rcases htotal x y with h1 | h1
        · exact absurd h1 h
        · rw [hzx]
          exact h1
      · exact hy z hz2
theorem sortBy_pairwise {α : Type} (le : α → α → Bool)
    (htrans : ∀ a b c, le a b = true → le b c = true → le a c = true)
    (htotal : ∀ a b, le a b = true ∨ le b a = true)
    (l : List α) : List.Pairwise (fun a b => le a b = true) (sortBy le l) := by
  induction l with
  | nil => simp [sortBy]
  | cons x xs ih => exact pairwise_insertSorted le htrans htotal x (sortBy le xs) ih
theorem length_padDigits (k n : Nat) : (padDigits k n).length = k := by
  induction k generalizing n with
  | zero => rfl
  | succ k ih => simp [padDigits, ih]
theorem digitChar_toNat (d : Nat) (hd : d ≤ 9) : (digitChar d).toNat = 48 + d := by
  interval_cases d <;> rfl
theorem digitChar_inj (a b : Nat) (ha : a ≤ 9) (hb : b ≤ 9)
    (h : digitChar a = digitChar b) : a = b := by
  have h2 := congrArg Char.toNat h
  rw [digitChar_toNat a ha, digitChar_toNat b hb] at h2
  omega
theorem lexLt_append (xs : List Char) (zs ws : List Char) :
    ∀ ys : List Char, xs.length = ys.length →
      (lexLt (xs ++ zs) (ys ++ ws) = true ↔
        lexLt xs ys = true ∨ (xs = ys ∧ lexLt zs ws = true)) := by
  induction xs with
  | nil =>
    intro ys hlen
    have hys : ys = [] := List.length_eq_zero.mp hlen.symm
    subst hys
    simp [lexLt]
  | cons a as ih =>
    intro ys hlen
    match ys with
    | [] => simp at hlen
    | b :: bs =>
      have hlen2 : as.length = bs.length := by
        simpa using hlen
      by_cases h1 : a.toNat < b.toNat
      · simp [lexLt, h1]
      · by_cases h2 : a = b
        · subst h2
          have hre : ∀ u v : List Char, lexLt (a :: u) (a :: v) = lexLt u v := by
            intro u v
            simp [lexLt]
          simp only [List.cons_append, hre, ih bs hlen2]
          constructor
          · rintro (h | ⟨h3, h4⟩)
            · exact Or.inl h
            · exact Or.inr ⟨by rw [h3], h4⟩
          · rintro (h | ⟨h3, h4⟩)
            · exact Or.inl h
            · injection h3 with _ h5
              exact Or.inr ⟨h5, h4⟩
        · have hb : (a == b) = false := beq_eq_false_iff_ne.mpr h2
          have hre : ∀ u v : List Char, lexLt (a :: u) (b :: v) = false := by
            intro u v
            simp [lexLt, h1, hb]
          simp only [List.cons_append, hre, Bool.false_eq_true, false_iff, false_or]
          rintro ⟨h3, _⟩
          injection h3 with hab _
          exact h2 hab
theorem padDigits_inj (k : Nat) : ∀ a b : Nat, a < 10 ^ k → b < 10 ^ k →
    padDigits k a = padDigits k b → a = b := by
  induction k with
  | zero =>
    intro a b ha hb _
    omega
  | succ k ih =>
    intro a b ha hb h
    have hlen : (padDigits k (a / 10)).length = (padDigits k (b / 10)).length := by
      rw [length_padDigits, length_padDigits]
    obtain ⟨h1, h2⟩ := List.append_inj h hlen
    have hd : a % 10 = b % 10 := by
      have := digitChar_inj (a % 10) (b % 10) (by omega) (by omega) (by injection h2)
      exact this
    have hq : a / 10 = b / 10 := by
      apply ih (a / 10) (b / 10) ?_ ?_ h1
      · have : (10 : Nat) ^ (k + 1) = 10 ^ k * 10 := pow_succ 10 k
        omega
      · have : (10 : Nat) ^ (k + 1) = 10 ^ k * 10 := pow_succ 10 k
        omega
    omega
theorem lexLt_singleton_digit (a b : Nat) (ha : a ≤ 9) (hb : b ≤ 9) :
    (lexLt [digitChar a] [digitChar b] = true ↔ a < b) := by
  interval_cases a <;> interval_cases b <;> decide
theorem padDigits_lt (k : Nat) : ∀ a b : Nat, a < 10 ^ k → b < 10 ^ k →
    (lexLt (padDigits k a) (padDigits k b) = true ↔ a < b) := by
  induction k with
  | zero =>
    intro a b ha hb
    simp only [padDigits, lexLt, Bool.false_eq_true, false_iff]
    omega
  | succ k ih =>
    intro a b ha hb
    have hp : (10 : Nat) ^ (k + 1) = 10 ^ k * 10 := pow_succ 10 k
    have hdiva : a / 10 < 10 ^ k := by omega
    have hdivb : b / 10 < 10 ^ k := by omega
    simp only [padDigits]
    rw [lexLt_append (padDigits k (a / 10)) [digitChar (a % 10)] [digitChar (b % 10)]
      (padDigits k (b / 10)) (by rw [length_padDigits, length_padDigits])]
    rw [ih (a / 10) (b / 10) hdiva hdivb]
    rw [lexLt_singleton_digit (a % 10) (b % 10) (by omega) (by omega)]
    constructor
    · rintro (h | ⟨h1, h2⟩)
      · omega
      · have := padDigits_inj k (a / 10) (b / 10) hdiva hdivb h1
        omega
    · intro h
      by_cases hq : a / 10 < b / 10
      · exact Or.inl hq
      · refine Or.inr ⟨?_, by omega⟩
        have : a / 10 = b / 10 := by omega
        rw [this]
theorem lexLt_cons_same (c : Char) (xs ys : List Char) :
    lexLt (c :: xs) (c :: ys) = lexLt xs ys := by
  simp [lexLt]
/-- Comparing format_dateint strings the way Python compares strings agrees
with comparing the underlying 8-digit date integers numerically. -/
theorem format_dateint_lt (a b : Nat) (ha : a < 100000000) (hb : b < 100000000) :
    (pyStrLt (format_dateint a) (format_dateint b) = true ↔ a < b) := by
  have h4a : a / 10000 < 10 ^ 4 := by omega
  have h4b : b / 10000 < 10 ^ 4 := by omega
  have h2am : a / 100 % 100 < 10 ^ 2 := by omega
  have h2bm : b / 100 % 100 < 10 ^ 2 := by omega
  have h2ad : a % 100 < 10 ^ 2 := by omega
  have h2bd : b % 100 < 10 ^ 2 := by omega
  show lexLt (format_dateint a).data (format_dateint b).data = true ↔ a < b
  have hda : (format_dateint a).data =
      padDigits 4 (a / 10000) ++ '-' :: (padDigits 2 (a / 100 % 100) ++ '-' :: padDigits 2 (a % 100)) := rfl
  have hdb : (format_dateint b).data =
      padDigits 4 (b / 10000) ++ '-' :: (padDigits 2 (b / 100 % 100) ++ '-' :: padDigits 2 (b % 100)) := rfl
  rw [hda, hdb]
  rw [lexLt_append (padDigits 4 (a / 10000)) _ _ (padDigits 4 (b / 10000))
    (by rw [length_padDigits, length_padDigits])]
  rw [lexLt_cons_same]
  rw [lexLt_append (padDigits 2 (a / 100 % 100)) _ _ (padDigits 2 (b / 100 % 100))
    (by rw [length_padDigits, length_padDigits])]
  rw [lexLt_cons_same]
  rw [padDigits_lt 4 (a / 10000) (b / 10000) h4a h4b]
  rw [padDigits_lt 2 (a / 100 % 100) (b / 100 % 100) h2am h2bm]
  rw [padDigits_lt 2 (a % 100) (b % 100) h2ad h2bd]
  constructor
  · rintro (h | ⟨h1, (h | ⟨h2, h3⟩)⟩)
    · omega
    · have := padDigits_inj 4 (a / 10000) (b / 10000) h4a h4b h1
      omega
    · have hq4 := padDigits_inj 4 (a / 10000) (b / 10000) h4a h4b h1
      have hq2 := padDigits_inj 2 (a / 100 % 100) (b / 100 % 100) h2am h2bm h2
      omega
  · intro h
    by_cases hq4 : a / 10000 < b / 10000
    · exact Or.inl hq4
    · have he4 : a / 10000 = b / 10000 := by omega
      refine Or.inr ⟨by rw [he4], ?_⟩
      by_cases hq2 : a / 100 % 100 < b / 100 % 100
      · exact Or.inl hq2
      · have he2 : a / 100 % 100 = b / 100 % 100 := by omega
        refine Or.inr ⟨by rw [he2], by omega⟩

theorem pairwise_getLast_max {α : Type} (R : α → α → Prop) (hrefl : ∀ a, R a a)
    (l : List α) (a : α) (hp : List.Pairwise R l) (hl : l.getLast? = some a) :
    ∀ b ∈ l, R b a := by
  obtain ⟨ys, rfl⟩ := List.getLast?_eq_some_iff.mp hl
  intro b hb
  rcases List.mem_append.mp hb with h | h
  · exact (List.pairwise_append.mp hp).2.2 b h a (List.mem_singleton_self a)
  · rw [List.mem_singleton.mp h]
    exact hrefl a

/-- C1: every DEPARTURE row produced by _process_arrival_departure_times
keeps its own event_time and benchmark fields while adopting, as its
stop_id, the stop_id of the qualifying ARRIVAL row (same service_date,
route_id, trip_id, vehicle_id, direction_id) with the greatest
stop_sequence strictly below its own; when no qualifying earlier arrival
exists its stop_id is null. -/
theorem c1_departure_adopts_previous_arrival_stop
    (pq_df : List PqRow) (d : PqRow) (t : Int)
    (hd : d ∈ pq_df) (ht : d.move_timestamp = some t) :
    ∃ e ∈ _process_arrival_departure_times pq_df,
      e.event_type = "DEP" ∧ e.event_time = t ∧
      e.service_date = d.service_date ∧ e.route_id = d.route_id ∧
      e.trip_id = d.trip_id ∧ e.direction_id = d.direction_id ∧
      e.stop_sequence = d.stop_sequence ∧ e.vehicle_id = d.vehicle_id ∧
      e.vehicle_label = d.vehicle_label ∧
      e.travel_time_seconds = d.travel_time_seconds ∧
      e.dwell_time_seconds = d.dwell_time_seconds ∧
      e.headway_seconds = d.headway_seconds ∧
      e.headway_branch_seconds = d.headway_branch_seconds ∧
      e.scheduled_tt = d.scheduled_tt.map intFrac ∧
      e.scheduled_headway = d.scheduled_headway ∧
      e.scheduled_headway_branch = d.scheduled_headway_branch ∧
      (qualifying_arrivals pq_df d = [] → e.stop_id = none) ∧
      (qualifying_arrivals pq_df d ≠ [] →
        ∃ amax ∈ qualifying_arrivals pq_df d,
          e.stop_id = amax.stop_id ∧
          ∀ b ∈ qualifying_arrivals pq_df d, b.stop_sequence ≤ amax.stop_sequence) := by
  simp only [_process_arrival_departure_times]
  set le := fun (a b : PqRow) => decide (a.stop_sequence ≤ b.stop_sequence) with hle
  set sorted := sortBy le pq_df with hsorted
  set arrRows := sorted.filter (fun r => r.stop_timestamp.isSome) with harrRows
  set A := arrRows.filter
    (fun a => sameMergeByKey a d && a.stop_sequence < d.stop_sequence) with hA
  have hperm : sorted.Perm pq_df := sortBy_perm le pq_df
  have hdsorted : d ∈ sorted := hperm.mem_iff.mpr hd
  have hAQ : A.Perm (qualifying_arrivals pq_df d) := by
    rw [hA, harrRows, List.filter_filter]
    exact hperm.filter _
  refine ⟨mkDepartureEvent d t ((A.getLast?).bind (fun a => a.stop_id)), ?_, rfl, rfl, rfl,
    rfl, rfl, rfl, rfl, rfl, rfl, rfl, rfl, rfl, rfl, rfl, rfl, rfl, ?_, ?_⟩
  · apply List.mem_append_right
    apply List.mem_filterMap.mpr
    exact ⟨d, hdsorted, by rw [ht]; rfl⟩
  · intro hq
    have hAnil : A = [] := List.perm_nil.mp (hq ▸ hAQ)
    show ((A.getLast?).bind (fun a => a.stop_id)) = none
    rw [hAnil]
    rfl
  · intro hq
    have hAne : A ≠ [] := by
      intro hnil
      have h2 : ([] : List PqRow).Perm (qualifying_arrivals pq_df d) := by
        rw [← hnil]
        exact hAQ
      exact hq (List.perm_nil.mp h2.symm)
    obtain ⟨a, ha⟩ : ∃ a, A.getLast? = some a := by
      cases h : A.getLast? with
      | none => exact absurd (List.getLast?_eq_none_iff.mp h) hAne
      | some a => exact ⟨a, rfl⟩
    have haA : a ∈ A := by
      obtain ⟨ys, hys⟩ := List.getLast?_eq_some_iff.mp ha
      rw [hys]
      exact List.mem_append_right ys (List.mem_singleton_self a)
    have htrans : ∀ a b c : PqRow, le a b = true → le b c = true → le a c = true := by
      intro a b c h1 h2
      simp only [hle, decide_eq_true_eq] at h1 h2 ⊢
      omega
    have htotal : ∀ a b : PqRow, le a b = true ∨ le b a = true := by
      intro a b
      simp only [hle, decide_eq_true_eq]
      omega
    have hsortpw : List.Pairwise (fun a b => le a b = true) sorted :=
      sortBy_pairwise le htrans htotal pq_df
    have hApw : List.Pairwise (fun a b => le a b = true) A := by
      apply List.Pairwise.sublist ?_ hsortpw
      exact (List.filter_sublist arrRows).trans (List.filter_sublist sorted)
    have hmax : ∀ b ∈ A, le b a = true := by
      apply pairwise_getLast_max (fun x y => le x y = true) ?_ A a hApw ha
      intro x
      simp only [hle, decide_eq_true_eq]
      omega
    refine ⟨a, hAQ.mem_iff.mp haA, ?_, ?_⟩
    · show ((A.getLast?).bind (fun a => a.stop_id)) = a.stop_id
      rw [ha]
      rfl
    · intro b hb
      have hbA : b ∈ A := hAQ.mem_iff.mpr hb
      have := hmax b hbA
      simp only [hle, decide_eq_true_eq] at this
      exact this

theorem bucket_unique (loc : Int → Int) (hmono : Monotone loc) (e : Event)
    (h0 : loc 0 ≤ e.event_time) (h1 : e.event_time < loc 174600) :
    ∃ i, i < 97 ∧ in_bucket loc i e = true ∧
      ∀ j, j < 97 → in_bucket loc j e = true → j = i := by
  have hP0 : loc (1800 * ((0 : Nat) : Int)) ≤ e.event_time := by
    simpa using h0
  set P : Nat → Prop := fun i => loc (1800 * (i : Int)) ≤ e.event_time with hP
  set i0 := Nat.findGreatest P 96 with hi0
  have hi0le : i0 ≤ 96 := Nat.findGreatest_le 96
  have hPi0 : P i0 := Nat.findGreatest_spec (Nat.zero_le 96) hP0
  have hub : e.event_time < loc (1800 * (i0 : Int) + 1800) := by
    by_cases hcase : i0 = 96
    · have h96 : (1800 * ((i0 : Nat) : Int) + 1800) = 174600 := by
        rw [hcase]
        norm_num
      rw [h96]
      exact h1
    · have hlt : i0 < 96 := lt_of_le_of_ne hi0le hcase
      have hnot : ¬ P (i0 + 1) :=
        @Nat.findGreatest_is_greatest (i0 + 1) P _ 96 (by omega) (by omega)
      have hnot2 : ¬ loc (1800 * ((i0 + 1 : Nat) : Int)) ≤ e.event_time := hnot
      have harg : (1800 * ((i0 + 1 : Nat) : Int)) = 1800 * (i0 : Int) + 1800 := by
        push_cast
        ring
      rw [harg] at hnot2
      omega
  refine ⟨i0, by omega, ?_, ?_⟩
  · have hPi0u : loc (1800 * (i0 : Int)) ≤ e.event_time := hPi0
    simp [in_bucket, hPi0u, hub]
  · intro j hj hbj
    have hb1 : loc (1800 * (j : Int)) ≤ e.event_time ∧
        e.event_time < loc (1800 * (j : Int) + 1800) := by
      simpa [in_bucket] using hbj
    by_contra hne
    rcases Nat.lt_or_ge j i0 with hlt | hge
    · have hmle : loc (1800 * (j : Int) + 1800) ≤ loc (1800 * (i0 : Int)) := by
        apply hmono
        have : (j : Int) + 1 ≤ (i0 : Int) := by exact_mod_cast hlt
        omega
      have := hb1.2
      have h2 : loc (1800 * (i0 : Int)) ≤ e.event_time := hPi0
      omega
    · have hgt : i0 < j := by omega
      have hnj : ¬ P j := @Nat.findGreatest_is_greatest j P _ 96 hgt (by omega)
      exact hnj hb1.1

theorem countP_eq_one_of_unique {ι : Type} (I : List ι) (p : ι → Bool) (hnd : I.Nodup)
    (i : ι) (hi : i ∈ I) (hp : p i = true) (huniq : ∀ j ∈ I, p j = true → j = i) :
    I.countP p = 1 := by
  induction I with
  | nil => cases hi
  | cons x xs ih =>
    obtain ⟨hx, hxs⟩ := List.nodup_cons.mp hnd
    rcases List.mem_cons.mp hi with heq | hixs
    · rw [List.countP_cons]
      have hz : xs.countP p = 0 := by
        apply List.countP_eq_zero.mpr
        intro a ha hpa
        have hai : a = i := huniq a (List.mem_cons_of_mem _ ha) hpa
        apply hx
        rw [← heq, ← hai]
        exact ha
      have hpx : p x = true := by
        rw [← heq]
        exact hp
      rw [hz, hpx]
      simp
    · have hpx : ¬ p x = true := by
        intro hpx
        have hxi : x = i := huniq x (List.mem_cons_self x xs) hpx
        apply hx
        rw [hxi]
        exact hixs
      rw [List.countP_cons]
      simp only [hpx, if_false]
      exact ih hxs hixs (fun j hj hpj => huniq j (List.mem_cons_of_mem _ hj) hpj)

theorem sum_map_ite_one {ι : Type} (I : List ι) (p : ι → Bool) :
    (I.map (fun i => if p i = true then 1 else 0)).sum = I.countP p := by
  induction I with
  | nil => simp
  | cons x xs ih =>
    rw [List.map_cons, List.sum_cons, List.countP_cons, ih]
    by_cases h : p x = true <;> simp [h] <;> omega

theorem sum_length_filters {ι α : Type} (I : List ι) (p : ι → α → Bool) (l : List α) :
    ((I.map (fun i => (l.filter (p i)).length)).sum) =
      ((l.map (fun e => I.countP (fun i => p i e))).sum) := by
  induction l with
  | nil => simp
  | cons e es ih =>
    have h1 : ∀ i : ι, ((e :: es).filter (p i)).length =
        (if p i e = true then 1 else 0) + (es.filter (p i)).length := by
      intro i
      by_cases h : p i e = true <;> simp [List.filter_cons, h] <;> omega
    calc (I.map (fun i => ((e :: es).filter (p i)).length)).sum
        = (I.map (fun i =>
            (if p i e = true then 1 else 0) + (es.filter (p i)).length)).sum := by
          apply congrArg
          exact List.map_congr_left (fun i _ => h1 i)
      _ = (I.map (fun i => if p i e = true then 1 else 0)).sum +
            (I.map (fun i => (es.filter (p i)).length)).sum := List.sum_map_add
      _ = I.countP (fun i => p i e) +
            (es.map (fun e2 => I.countP (fun i => p i e2))).sum := by
          rw [sum_map_ite_one, ih]
      _ = ((e :: es).map (fun e2 => I.countP (fun i => p i e2))).sum := by
          rw [List.map_cons, List.sum_cons]

/-- C3 (amended): for input tables whose events all fall inside the bucketed
48.5-hour window, _average_scheduled_headways preserves the row count
exactly; and every in-window event with a non-null stop_id and a non-null
scheduled_headway yields an output event (same identity columns) whose
scheduled_headway is still non-null. -/
theorem c3_headway_smoothing_amended (loc : Int → Int) (hmono : Monotone loc)
    (pq_df : List Event)
    (hin : ∀ e ∈ pq_df, loc 0 ≤ e.event_time ∧ e.event_time < loc 174600) :
    (_average_scheduled_headways loc pq_df).length = pq_df.length ∧
    (∀ e ∈ pq_df, e.stop_id ≠ none → e.scheduled_headway ≠ none →
      ∃ e2 ∈ _average_scheduled_headways loc pq_df,
        e2.service_date = e.service_date ∧ e2.route_id = e.route_id ∧
        e2.trip_id = e.trip_id ∧ e2.direction_id = e.direction_id ∧
        e2.stop_id = e.stop_id ∧ e2.stop_sequence = e.stop_sequence ∧
        e2.event_type = e.event_type ∧ e2.event_time = e.event_time ∧
        e2.scheduled_headway ≠ none) := by
  constructor
  · have hcnt : ∀ e ∈ pq_df, (List.range 97).countP (fun i => in_bucket loc i e) = 1 := by
      intro e he
      obtain ⟨i, hi, hbi, huniq⟩ := bucket_unique loc hmono e (hin e he).1 (hin e he).2
      exact countP_eq_one_of_unique (List.range 97) _ (List.nodup_range 97) i
        (List.mem_range.mpr hi) hbi
        (fun j hj hpj => huniq j (List.mem_range.mp hj) hpj)
    have h1 : (_average_scheduled_headways loc pq_df).length =
        ((List.range 97).map (fun i => (pq_df.filter (in_bucket loc i)).length)).sum := by
      simp [_average_scheduled_headways, List.length_flatMap, Function.comp_def]
    rw [h1, sum_length_filters]
    have h2 : pq_df.map (fun e => (List.range 97).countP (fun i => in_bucket loc i e)) =
        pq_df.map (fun _ => 1) := List.map_congr_left (fun e he => hcnt e he)
    rw [h2]
    simp
  · intro e he hstop hsched
    obtain ⟨i, hi, hbi, _⟩ := bucket_unique loc hmono e (hin e he).1 (hin e he).2
    obtain ⟨s, hs⟩ : ∃ s, e.stop_id = some s := by
      cases h : e.stop_id with
      | none => exact absurd h hstop
      | some s => exact ⟨s, rfl⟩
    obtain ⟨h0, hh⟩ : ∃ h0, e.scheduled_headway = some h0 := by
      cases h : e.scheduled_headway with
      | none => exact absurd h hsched
      | some h0 => exact ⟨h0, rfl⟩
    have hefilt : e ∈ pq_df.filter (in_bucket loc i) := List.mem_filter.mpr ⟨he, hbi⟩
    have hegroup : e ∈ (pq_df.filter (in_bucket loc i)).filter (fun e2 =>
        e2.route_id == e.route_id && e2.direction_id == e.direction_id &&
          e2.stop_id == e.stop_id) := by
      apply List.mem_filter.mpr
      refine ⟨hefilt, ?_⟩
      simp
    have hvmem : h0 ∈ ((pq_df.filter (in_bucket loc i)).filter (fun e2 =>
        e2.route_id == e.route_id && e2.direction_id == e.direction_id &&
          e2.stop_id == e.stop_id)).filterMap (fun e2 => e2.scheduled_headway) :=
      List.mem_filterMap.mpr ⟨e, hegroup, hh⟩
    have hvne : (((pq_df.filter (in_bucket loc i)).filter (fun e2 =>
        e2.route_id == e.route_id && e2.direction_id == e.direction_id &&
          e2.stop_id == e.stop_id)).filterMap (fun e2 => e2.scheduled_headway)).isEmpty
        = false := by
      rw [List.isEmpty_eq_false_iff_exists_mem]
      exact ⟨h0, hvmem⟩
    simp only [_average_scheduled_headways]
    refine ⟨{ e with scheduled_headway := some (roundHalfEvenTo10
      (((pq_df.filter (in_bucket loc i)).filter (fun e2 =>
        e2.route_id == e.route_id && e2.direction_id == e.direction_id &&
          e2.stop_id == e.stop_id)).filterMap (fun e2 => e2.scheduled_headway)).sum
      (((pq_df.filter (in_bucket loc i)).filter (fun e2 =>
        e2.route_id == e.route_id && e2.direction_id == e.direction_id &&
          e2.stop_id == e.stop_id)).filterMap (fun e2 => e2.scheduled_headway)).length) },
      ?_, ?_⟩
    · apply List.mem_flatMap.mpr
      refine ⟨i, List.mem_range.mpr hi, ?_⟩
      apply List.mem_map.mpr
      refine ⟨e, hefilt, ?_⟩
      rw [hs] at hvne
      simp only [hs, hvne, Bool.false_eq_true, if_false]
    · refine ⟨rfl, rfl, rfl, rfl, rfl, rfl, rfl, rfl, ?_⟩
      simp

/-- C3 counterexample: on a 2-row input table holding one event one second
before the service date's local midnight (outside every bucket) and one
in-window event with a null stop_id and a non-null scheduled_headway, the
smoothing stage returns 1 row instead of 2, and the surviving row's
formerly non-null scheduled_headway is null. -/
theorem c3_headway_smoothing_counterexample :
    _average_scheduled_headways est_loc_feb07_2024 [c3OutOfWindowEvent, c3NullStopEvent] =
      [{ c3NullStopEvent with scheduled_headway := none }] ∧
    [c3OutOfWindowEvent, c3NullStopEvent].length = 2 ∧
    c3NullStopEvent.scheduled_headway = some 300 := by
  refine ⟨by decide, rfl, rfl⟩

/-- C3 witness: the amended theorem applied to the concrete 2024-02-07
localization and a single in-window event. -/
theorem c3_headway_smoothing_witness :
    Monotone est_loc_feb07_2024 ∧
    (∀ e ∈ [c3WitnessEvent], est_loc_feb07_2024 0 ≤ e.event_time ∧
      e.event_time < est_loc_feb07_2024 174600) ∧
    (_average_scheduled_headways est_loc_feb07_2024 [c3WitnessEvent]).length =
      [c3WitnessEvent].length ∧
    (∃ e2 ∈ _average_scheduled_headways est_loc_feb07_2024 [c3WitnessEvent],
      e2.service_date = c3WitnessEvent.service_date ∧
      e2.route_id = c3WitnessEvent.route_id ∧
      e2.trip_id = c3WitnessEvent.trip_id ∧
      e2.direction_id = c3WitnessEvent.direction_id ∧
      e2.stop_id = c3WitnessEvent.stop_id ∧
      e2.stop_sequence = c3WitnessEvent.stop_sequence ∧
      e2.event_type = c3WitnessEvent.event_type ∧
      e2.event_time = c3WitnessEvent.event_time ∧
      e2.scheduled_headway ≠ none) := by
  have hmono : Monotone est_loc_feb07_2024 := by
    intro a b h
    simp only [est_loc_feb07_2024]
    omega
  have hin : ∀ e ∈ [c3WitnessEvent], est_loc_feb07_2024 0 ≤ e.event_time ∧
      e.event_time < est_loc_feb07_2024 174600 := by decide
  have h := c3_headway_smoothing_amended est_loc_feb07_2024 hmono [c3WitnessEvent] hin
  exact ⟨hmono, hin, h.1, h.2 c3WitnessEvent (by decide) (by decide) (by decide)⟩

theorem except_bind_ok {α β : Type} (x : Except String α) (f : α → Except String β) (b : β) :
    (x >>= f = Except.ok b) ↔ ∃ a, x = Except.ok a ∧ f a = Except.ok b := by
  cases x with
  | error e => simp [Bind.bind, Except.bind]
  | ok a => simp [Bind.bind, Except.bind]

theorem mem_process_inv (pq : List PqRow) (e : Event)
    (he : e ∈ _process_arrival_departure_times pq) :
    ∃ r ∈ pq, e.trip_id = r.trip_id ∧ e.service_date = r.service_date := by
  simp only [_process_arrival_departure_times] at he
  rcases List.mem_append.mp he with h | h
  · obtain ⟨r, hr, hf⟩ := List.mem_filterMap.mp h
    obtain ⟨t, ht, he2⟩ := Option.map_eq_some'.mp hf
    refine ⟨r, (sortBy_perm _ pq).mem_iff.mp hr, ?_⟩
    rw [← he2]
    exact ⟨rfl, rfl⟩
  · obtain ⟨r, hr, hf⟩ := List.mem_filterMap.mp h
    obtain ⟨t, ht, he2⟩ := Option.map_eq_some'.mp hf
    refine ⟨r, (sortBy_perm _ pq).mem_iff.mp hr, ?_⟩
    rw [← he2]
    exact ⟨rfl, rfl⟩

theorem mem_recalc_pure_inv (loc : Int → Int) (g : List GtfsRow) (pq : List Event)
    (e2 : Event) (he : e2 ∈ _recalculate_pure loc g pq) :
    ∃ e ∈ pq, e2.trip_id = e.trip_id ∧ e2.service_date = e.service_date := by
  simp only [_recalculate_pure] at he
  obtain ⟨p, hp, he2⟩ := List.mem_map.mp he
  obtain ⟨q, hq, hp2⟩ := List.mem_map.mp hp
  obtain ⟨be, hbe, hq2⟩ := List.mem_flatMap.mp hq
  obtain ⟨ev, hev, hbe2⟩ := List.mem_map.mp hbe
  have hq1 : q.1 = be := by
    split at hq2
    · rw [List.mem_singleton.mp hq2]
    · obtain ⟨gr, _, hgr⟩ := List.mem_map.mp hq2
      rw [← hgr]
  have hp1 : p.1 = q.1 := by
    rw [← hp2]
    rcases q with ⟨qb, qt⟩
    cases qt with
    | some tt => rfl
    | none =>
      cases hs : qb.event.stop_id with
      | none => simp [hs]
      | some s => simp [hs]
  have hbev : be.event = ev := by
    rw [← hbe2]
  refine ⟨ev, hev, ?_⟩
  rw [← he2, hp1, hq1, hbev]
  exact ⟨rfl, rfl⟩

theorem mem_average_inv (loc : Int → Int) (pq : List Event) (e2 : Event)
    (he : e2 ∈ _average_scheduled_headways loc pq) :
    ∃ e ∈ pq, e2.trip_id = e.trip_id ∧ e2.service_date = e.service_date := by
  simp only [_average_scheduled_headways] at he
  obtain ⟨i, hi, he2⟩ := List.mem_flatMap.mp he
  obtain ⟨e, hef, heq⟩ := List.mem_map.mp he2
  refine ⟨e, (List.mem_filter.mp hef).1, ?_⟩
  rw [← heq]
  cases h : e.stop_id <;> simp [h]

/-- Every event in the finalized output of ingest_pq_file descends from a
row that survived the non-revenue drop (keeping its trip_id and formatted
service_date). -/
theorem ingest_event_provenance (loc : Int → Int)
    (feed : Except String (List StopTime × List Trip)) (raw : List LampRow)
    (out : List Event) (h : ingest_pq_file loc feed raw = .ok out) :
    ∀ e ∈ out, ∃ r ∈ drop_nonrevenue ((raw.map lamp_to_pq).map replace_stop_id_aliases),
      e.trip_id = r.trip_id ∧ e.service_date = r.service_date := by
  intro e he
  simp only [ingest_pq_file] at h
  obtain ⟨p2, hrec, hpure⟩ := (except_bind_ok _ _ _).mp h
  have hout : out = sortBy (fun a b => a.event_time ≤ b.event_time)
      (_average_scheduled_headways loc p2) := by
    simp only [pure, Except.pure] at hpure
    injection hpure with h2
    rw [h2]
  have he2 : e ∈ _average_scheduled_headways loc p2 := by
    have := he
    rw [hout] at this
    exact (sortBy_perm _ _).mem_iff.mp this
  obtain ⟨e3, he3, ht3, hs3⟩ := mem_average_inv loc p2 e he2
  simp only [_recalculate_fields_from_gtfs] at hrec
  obtain ⟨g, hfetch, hpure2⟩ := (except_bind_ok _ _ _).mp hrec
  have hp2 : p2 = _recalculate_pure loc g
      ((_process_arrival_departure_times
        (drop_nonrevenue ((raw.map lamp_to_pq).map replace_stop_id_aliases))).filter
        (fun e => e.stop_id.isSome)) := by
    simp only [pure, Except.pure] at hpure2
    injection hpure2 with h2
    rw [h2]
  rw [hp2] at he3
  obtain ⟨e4, he4, ht4, hs4⟩ := mem_recalc_pure_inv loc g _ e3 he3
  have he5 : e4 ∈ _process_arrival_departure_times
      (drop_nonrevenue ((raw.map lamp_to_pq).map replace_stop_id_aliases)) :=
    (List.mem_filter.mp he4).1
  obtain ⟨r, hr, ht5, hs5⟩ := mem_process_inv _ e4 he5
  refine ⟨r, hr, ?_, ?_⟩
  · rw [ht3, ht4, ht5]
  · rw [hs3, hs4, hs5]

theorem drop_nonrevenue_mem (rows : List PqRow) (r : PqRow) (y m d : Nat)
    (hy : y < 10000) (hm : m < 100) (hd : d < 100)
    (hsd : r.service_date = format_dateint (y * 10000 + m * 100 + d)) :
    (r ∈ drop_nonrevenue rows ↔ r ∈ rows ∧
      ¬(py_startswith r.trip_id ("NONREV-") = true ∧ dateBefore y m d 2023 11 30)) := by
  have hlt : pyStrLt r.service_date (format_dateint 20231130) = true ↔
      dateBefore y m d 2023 11 30 := by
    rw [hsd, format_dateint_lt (y * 10000 + m * 100 + d) 20231130 (by omega) (by norm_num)]
    unfold dateBefore
    omega
  simp only [drop_nonrevenue, List.mem_filter, TRIP_IDS_TO_DROP, List.any_cons,
    List.any_nil, Bool.or_false, Bool.not_eq_true', Bool.and_eq_false_iff]
  constructor
  · rintro ⟨hmem, hpred⟩
    refine ⟨hmem, ?_⟩
    rintro ⟨hsw, hdb⟩
    rcases hpred with h | h
    · rw [hsw] at h
      cases h
    · rw [hlt.mpr hdb] at h
      cases h
  · rintro ⟨hmem, hpred⟩
    refine ⟨hmem, ?_⟩
    by_cases hsw : py_startswith r.trip_id ("NONREV-") = true
    · right
      cases hb : pyStrLt r.service_date (format_dateint 20231130) with
      | false => rfl
      | true => exact absurd ⟨hsw, hlt.mp hb⟩ hpred
    · left
      cases hb : py_startswith r.trip_id ("NONREV-") with
      | false => rfl
      | true => exact absurd hb hsw

/-- C4: the non-revenue cutoff. First, a row passes the drop stage if and
only if it does not both carry the reserved NONREV- marker and have a
service date strictly before 2023-11-30 (so marker rows strictly before
the cutoff are dropped, marker rows on or after the cutoff are retained,
and rows without the marker are untouched by the filter). Second, in the
finalized output of ingest_pq_file no event carries the marker together
with a pre-cutoff service date. -/
theorem c4_nonrevenue_cutoff :
    (∀ (rows : List PqRow) (r : PqRow) (y m d : Nat), y < 10000 → m < 100 → d < 100 →
      r.service_date = format_dateint (y * 10000 + m * 100 + d) →
      (r ∈ drop_nonrevenue rows ↔ r ∈ rows ∧
        ¬(py_startswith r.trip_id ("NONREV-") = true ∧ dateBefore y m d 2023 11 30))) ∧
    (∀ (loc : Int → Int) (feed : Except String (List StopTime × List Trip))
        (raw : List LampRow) (out : List Event),
      ingest_pq_file loc feed raw = .ok out →
      ∀ e ∈ out, ∀ y m d : Nat, y < 10000 → m < 100 → d < 100 →
        e.service_date = format_dateint (y * 10000 + m * 100 + d) →
        py_startswith e.trip_id ("NONREV-") = true →
        ¬ dateBefore y m d 2023 11 30) := by
  constructor
  · intro rows r y m d hy hm hd hsd
    exact drop_nonrevenue_mem rows r y m d hy hm hd hsd
  · intro loc feed raw out h e he y m d hy hm hd hsd hsw hdb
    obtain ⟨r, hr, ht, hs⟩ := ingest_event_provenance loc feed raw out h e he
    have hrsd : r.service_date = format_dateint (y * 10000 + m * 100 + d) := by
      rw [← hs]
      exact hsd
    have hrsw : py_startswith r.trip_id ("NONREV-") = true := by
      rw [← ht]
      exact hsw
    have := (drop_nonrevenue_mem _ r y m d hy hm hd hrsd).mp hr
    exact this.2 ⟨hrsw, hdb⟩

/-- C4 witness: the filter characterization applied to a concrete marker
row dated 2023-11-29. -/
theorem c4_nonrevenue_cutoff_witness :
    (c4SampleRow ∈ drop_nonrevenue [c4SampleRow] ↔
      (c4SampleRow ∈ [c4SampleRow] ∧
        ¬(py_startswith c4SampleRow.trip_id ("NONREV-") = true ∧
          dateBefore 2023 11 29 2023 11 30))) :=
  c4_nonrevenue_cutoff.1 [c4SampleRow] c4SampleRow
    2023 11 29 (by omega) (by omega) (by omega) (by decide)

/-- C1 witness: the as-of departure correction applied to a concrete
two-row trip. -/
theorem c1_witness :
    c1SampleDeparture ∈ [c1SampleArrival, c1SampleDeparture] ∧
    c1SampleDeparture.move_timestamp = some 1000 ∧
    (∃ e ∈ _process_arrival_departure_times [c1SampleArrival, c1SampleDeparture],
      e.event_type = "DEP" ∧ e.event_time = 1000 ∧
      e.service_date = c1SampleDeparture.service_date ∧
      e.route_id = c1SampleDeparture.route_id ∧
      e.trip_id = c1SampleDeparture.trip_id ∧
      e.direction_id = c1SampleDeparture.direction_id ∧
      e.stop_sequence = c1SampleDeparture.stop_sequence ∧
      e.vehicle_id = c1SampleDeparture.vehicle_id ∧
      e.vehicle_label = c1SampleDeparture.vehicle_label ∧
      e.travel_time_seconds = c1SampleDeparture.travel_time_seconds ∧
      e.dwell_time_seconds = c1SampleDeparture.dwell_time_seconds ∧
      e.headway_seconds = c1SampleDeparture.headway_seconds ∧
      e.headway_branch_seconds = c1SampleDeparture.headway_branch_seconds ∧
      e.scheduled_tt = c1SampleDeparture.scheduled_tt.map intFrac ∧
      e.scheduled_headway = c1SampleDeparture.scheduled_headway ∧
      e.scheduled_headway_branch = c1SampleDeparture.scheduled_headway_branch ∧
      (qualifying_arrivals [c1SampleArrival, c1SampleDeparture] c1SampleDeparture = [] →
        e.stop_id = none) ∧
      (qualifying_arrivals [c1SampleArrival, c1SampleDeparture] c1SampleDeparture ≠ [] →
        ∃ amax ∈ qualifying_arrivals [c1SampleArrival, c1SampleDeparture] c1SampleDeparture,
          e.stop_id = amax.stop_id ∧
          ∀ b ∈ qualifying_arrivals [c1SampleArrival, c1SampleDeparture] c1SampleDeparture,
            b.stop_sequence ≤ amax.stop_sequence)) :=
  ⟨by decide, by decide,
    c1_departure_adopts_previous_arrival_stop [c1SampleArrival, c1SampleDeparture]
      c1SampleDeparture 1000 (by decide) (by decide)⟩

theorem get_branch_for_trip_spec (route_id : String) (stop_ids : List String) :
    ((route_id = "Red" → (∃ s ∈ stop_ids, s ∈ RED_LINE_ASHMONT_STOPS) →
        (∀ s ∈ stop_ids, s ∉ RED_LINE_BRAINTREE_STOPS) →
        get_branch_for_trip route_id stop_ids = "Red-A") ∧
      (route_id = "Red" → (∃ s ∈ stop_ids, s ∈ RED_LINE_BRAINTREE_STOPS) →
        (∀ s ∈ stop_ids, s ∉ RED_LINE_ASHMONT_STOPS) →
        get_branch_for_trip route_id stop_ids = "Red-B") ∧
      (route_id = "Red" →
        (∀ s ∈ stop_ids, s ∉ RED_LINE_ASHMONT_STOPS ∧ s ∉ RED_LINE_BRAINTREE_STOPS) →
        get_branch_for_trip route_id stop_ids = "Red") ∧
      (route_id ≠ "Red" → get_branch_for_trip route_id stop_ids = route_id)) := by
  have hany : ∀ (l : List String),
      (stop_ids.any (fun s => l.contains s) = true) ↔ ∃ s ∈ stop_ids, s ∈ l := by
    intro l
    rw [List.any_eq_true]
    constructor
    · rintro ⟨s, hs, hc⟩
      exact ⟨s, hs, List.elem_iff.mp hc⟩
    · rintro ⟨s, hs, hc⟩
      exact ⟨s, hs, List.elem_iff.mpr hc⟩
  refine ⟨?_, ?_, ?_, ?_⟩
  · intro hred hash hbra
    have ha : stop_ids.any (fun s => RED_LINE_ASHMONT_STOPS.contains s) = true :=
      (hany _).mpr hash
    have hb : stop_ids.any (fun s => RED_LINE_BRAINTREE_STOPS.contains s) = false := by
      rw [← Bool.not_eq_true, hany _]
      rintro ⟨s, hs, hc⟩
      exact hbra s hs hc
    subst hred
    simp only [get_branch_for_trip]
    rw [ha, hb]
    rfl
  · intro hred hbra hash
    have ha : stop_ids.any (fun s => RED_LINE_ASHMONT_STOPS.contains s) = false := by
      rw [← Bool.not_eq_true, hany _]
      rintro ⟨s, hs, hc⟩
      exact hash s hs hc
    have hb : stop_ids.any (fun s => RED_LINE_BRAINTREE_STOPS.contains s) = true :=
      (hany _).mpr hbra
    subst hred
    simp only [get_branch_for_trip]
    rw [ha, hb]
    rfl
  · intro hred hnone
    have ha : stop_ids.any (fun s => RED_LINE_ASHMONT_STOPS.contains s) = false := by
      rw [← Bool.not_eq_true, hany _]
      rintro ⟨s, hs, hc⟩
      exact (hnone s hs).1 hc
    have hb : stop_ids.any (fun s => RED_LINE_BRAINTREE_STOPS.contains s) = false := by
      rw [← Bool.not_eq_true, hany _]
      rintro ⟨s, hs, hc⟩
      exact (hnone s hs).2 hc
    subst hred
    simp only [get_branch_for_trip]
    rw [ha, hb]
    rfl
  · intro hred
    have hbeq : (route_id == "Red") = false := beq_eq_false_iff_ne.mpr hred
    simp only [get_branch_for_trip]
    rw [hbeq]
    simp

/-- C5: branch derivation classifies every trip from the branch-exclusive
stops it visits, for both the LAMP and the GTFS variant: on a Red Line trip
(all rows of the trip sharing route_id Red) visiting an Ashmont-exclusive
stop and no Braintree-exclusive stop the derived branch_route_id is Red-A,
in the symmetric case Red-B, with only trunk stops it stays Red, and on a
non-Red trip it is the trip's route_id unchanged. -/
theorem c5_branch_derivation :
    (∀ (pq_df : List Event), ∀ be ∈ _derive_lamp_branch_route_id pq_df,
      (∀ x ∈ pq_df.filter (fun e2 => e2.trip_id == be.event.trip_id),
        x.route_id = be.event.route_id) →
      ((be.event.route_id = "Red" →
          (∃ s ∈ (pq_df.filter (fun e2 => e2.trip_id == be.event.trip_id)).filterMap
              (fun r => r.stop_id), s ∈ RED_LINE_ASHMONT_STOPS) →
          (∀ s ∈ (pq_df.filter (fun e2 => e2.trip_id == be.event.trip_id)).filterMap
              (fun r => r.stop_id), s ∉ RED_LINE_BRAINTREE_STOPS) →
          be.branch_route_id = "Red-A") ∧
        (be.event.route_id = "Red" →
          (∃ s ∈ (pq_df.filter (fun e2 => e2.trip_id == be.event.trip_id)).filterMap
              (fun r => r.stop_id), s ∈ RED_LINE_BRAINTREE_STOPS) →
          (∀ s ∈ (pq_df.filter (fun e2 => e2.trip_id == be.event.trip_id)).filterMap
              (fun r => r.stop_id), s ∉ RED_LINE_ASHMONT_STOPS) →
          be.branch_route_id = "Red-B") ∧
        (be.event.route_id = "Red" →
          (∀ s ∈ (pq_df.filter (fun e2 => e2.trip_id == be.event.trip_id)).filterMap
              (fun r => r.stop_id),
            s ∉ RED_LINE_ASHMONT_STOPS ∧ s ∉ RED_LINE_BRAINTREE_STOPS) →
          be.branch_route_id = "Red") ∧
        (be.event.route_id ≠ "Red" → be.branch_route_id = be.event.route_id))) ∧
    (∀ (gtfs_stops : List GtfsRow), ∀ gb ∈ _derive_gtfs_branch_route_id gtfs_stops,
      (∀ x ∈ gtfs_stops.filter (fun g2 => g2.trip_id == gb.1.trip_id),
        x.route_id = gb.1.route_id) →
      ((gb.1.route_id = "Red" →
          (∃ s ∈ (gtfs_stops.filter (fun g2 => g2.trip_id == gb.1.trip_id)).map
              (fun r => r.stop_id), s ∈ RED_LINE_ASHMONT_STOPS) →
          (∀ s ∈ (gtfs_stops.filter (fun g2 => g2.trip_id == gb.1.trip_id)).map
              (fun r => r.stop_id), s ∉ RED_LINE_BRAINTREE_STOPS) →
          gb.2 = "Red-A") ∧
        (gb.1.route_id = "Red" →
          (∃ s ∈ (gtfs_stops.filter (fun g2 => g2.trip_id == gb.1.trip_id)).map
              (fun r => r.stop_id), s ∈ RED_LINE_BRAINTREE_STOPS) →
          (∀ s ∈ (gtfs_stops.filter (fun g2 => g2.trip_id == gb.1.trip_id)).map
              (fun r => r.stop_id), s ∉ RED_LINE_ASHMONT_STOPS) →
          gb.2 = "Red-B") ∧
        (gb.1.route_id = "Red" →
          (∀ s ∈ (gtfs_stops.filter (fun g2 => g2.trip_id == gb.1.trip_id)).map
              (fun r => r.stop_id),
            s ∉ RED_LINE_ASHMONT_STOPS ∧ s ∉ RED_LINE_BRAINTREE_STOPS) →
          gb.2 = "Red") ∧
        (gb.1.route_id ≠ "Red" → gb.2 = gb.1.route_id))) := by
  constructor
  · intro pq_df be hbe hconsist
    obtain ⟨e, he, hbe2⟩ := List.mem_map.mp hbe
    have hbev : be.event = e := by rw [← hbe2]
    subst hbe2
    have hetrip : e ∈ pq_df.filter (fun e2 => e2.trip_id == e.trip_id) :=
      List.mem_filter.mpr ⟨he, by simp⟩
    have hne : pq_df.filter (fun e2 => e2.trip_id == e.trip_id) ≠ [] :=
      List.ne_nil_of_mem hetrip
    obtain ⟨h, hh⟩ : ∃ h, (pq_df.filter (fun e2 => e2.trip_id == e.trip_id)).head? = some h := by
      cases hc : (pq_df.filter (fun e2 => e2.trip_id == e.trip_id)).head? with
      | none => exact absurd (List.head?_eq_none_iff.mp hc) hne
      | some h => exact ⟨h, rfl⟩
    have hhm : h ∈ pq_df.filter (fun e2 => e2.trip_id == e.trip_id) := List.mem_of_mem_head? hh
    have hroute : ((pq_df.filter (fun e2 => e2.trip_id == e.trip_id)).head?.map
        (fun r => r.route_id)).getD ("") = e.route_id := by
      rw [hh]
      simp only [Option.map_some', Option.getD_some]
      exact hconsist h hhm
    show _ ∧ _ ∧ _ ∧ _
    have hspec := get_branch_for_trip_spec
      (((pq_df.filter (fun e2 => e2.trip_id == e.trip_id)).head?.map
        (fun r => r.route_id)).getD (""))
      ((pq_df.filter (fun e2 => e2.trip_id == e.trip_id)).filterMap (fun r => r.stop_id))
    rw [hroute] at hspec
    rw [hroute]
    exact hspec
  · intro gtfs_stops gb hgb hconsist
    obtain ⟨g, hg, hgb2⟩ := List.mem_map.mp hgb
    subst hgb2
    have hgtrip : g ∈ gtfs_stops.filter (fun g2 => g2.trip_id == g.trip_id) :=
      List.mem_filter.mpr ⟨hg, by simp⟩
    have hne : gtfs_stops.filter (fun g2 => g2.trip_id == g.trip_id) ≠ [] :=
      List.ne_nil_of_mem hgtrip
    obtain ⟨h, hh⟩ : ∃ h,
        (gtfs_stops.filter (fun g2 => g2.trip_id == g.trip_id)).head? = some h := by
      cases hc : (gtfs_stops.filter (fun g2 => g2.trip_id == g.trip_id)).head? with
      | none => exact absurd (List.head?_eq_none_iff.mp hc) hne
      | some h => exact ⟨h, rfl⟩
    have hhm : h ∈ gtfs_stops.filter (fun g2 => g2.trip_id == g.trip_id) :=
      List.mem_of_mem_head? hh
    have hroute : ((gtfs_stops.filter (fun g2 => g2.trip_id == g.trip_id)).head?.map
        (fun r => r.route_id)).getD ("") = g.route_id := by
      rw [hh]
      simp only [Option.map_some', Option.getD_some]
      exact hconsist h hhm
    have hspec := get_branch_for_trip_spec
      (((gtfs_stops.filter (fun g2 => g2.trip_id == g.trip_id)).head?.map
        (fun r => r.route_id)).getD (""))
      ((gtfs_stops.filter (fun g2 => g2.trip_id == g.trip_id)).map (fun r => r.stop_id))
    rw [hroute] at hspec
    rw [hroute]
    exact hspec

/-- C5 witness: the branch derivation applied to the concrete Red Line trip
visiting trunk stop 70061 and Ashmont-exclusive stop 70085. -/
theorem c5_branch_derivation_witness :
    c5Be ∈ _derive_lamp_branch_route_id c5TripEvents ∧
    c5Be.event.route_id = "Red" ∧ c5Be.branch_route_id = "Red-A" :=
  ⟨by decide, by decide,
    (c5_branch_derivation.1 c5TripEvents c5Be (by decide) (by decide)).1
      (by decide) (by decide) (by decide)⟩

/-- C6: service_date maps an instant whose local wall clock is before
03:00:00 to the previous calendar date and an instant from 03:00:00 onward
to its own calendar date; in particular (across the 2023 fall-back
daylight-saving transition) 2023-11-05 23:59:59 and 2023-11-06 01:00:00
belong to service date 2023-11-05 while 2023-11-06 03:00:00 belongs to
2023-11-06. -/
theorem c6_service_date_boundary (d : PDate) (t : Nat) :
    (t < 10800 → service_date d t = prevCalendarDate d) ∧
    (10800 ≤ t → service_date d t = d) ∧
    service_date ⟨2023, 11, 5⟩ 86399 = ⟨2023, 11, 5⟩ ∧
    service_date ⟨2023, 11, 6⟩ 3600 = ⟨2023, 11, 5⟩ ∧
    service_date ⟨2023, 11, 6⟩ 10800 = ⟨2023, 11, 6⟩ := by
  refine ⟨?_, ?_, by decide, by decide, by decide⟩
  · intro h
    unfold service_date
    rw [if_pos (by omega)]
  · intro h
    unfold service_date
    rw [if_neg (by omega)]

/-- C6 witness: the boundary cases at a concrete date. -/
theorem c6_service_date_boundary_witness :
    service_date ⟨2023, 12, 16⟩ 0 = prevCalendarDate ⟨2023, 12, 16⟩ ∧
    service_date ⟨2023, 12, 16⟩ 10800 = ⟨2023, 12, 16⟩ :=
  ⟨(c6_service_date_boundary ⟨2023, 12, 16⟩ 0).1 (by omega),
   (c6_service_date_boundary ⟨2023, 12, 16⟩ 10800).2.1 (by omega)⟩

/-- C7: the LAMP backfill loop does not tolerate a per-date fetch failure.
Evaluating backfill_all_in_index at the failing inputs: when the most
recent date's fetch raises, the loop body falls through to processing with
the pq_df variable unbound and the whole backfill aborts with a NameError
(no remaining date is processed); when a later date's fetch raises, that
date is silently processed with the previous date's dataframe instead of
being skipped. -/
theorem c7_backfill_fetch_failure_behavior :
    backfill_all_in_index [1, 2]
        (fun d => if d = 2 then .error ("Failed to fetch") else .ok d)
        (fun t d => (t, d)) = .error ("NameError: name pq_df is not defined") ∧
    backfill_all_in_index [1, 2, 3]
        (fun d => if d = 2 then .error ("Failed to fetch") else .ok (d * 100))
        (fun t d => (t, d)) = .ok [(300, 3), (300, 2), (100, 1)] :=
  ⟨rfl, rfl⟩

/-- C8: the partitioned historical writers are deterministic across runs:
the wall clock at write time does not influence any per-partition artifact,
because the gzip header mtime is pinned to the constant 0 (and DEFLATE is a
pure function of header and payload). -/
theorem c8_to_disk_deterministic (now1 now2 : Nat) (df : List HistRow) (dfb : List BusRow) :
    to_disk now1 df false = to_disk now2 df false ∧
    to_disk_bus now1 dfb false = to_disk_bus now2 dfb false :=
  ⟨rfl, rfl⟩

theorem chunksOfAux_flatten (k : Nat) (hk : k ≠ 0) :
    ∀ (fuel : Nat) (l : List String), l.length ≤ fuel →
      (chunksOfAux fuel k l).flatten = l := by
  intro fuel
  induction fuel with
  | zero =>
    intro l hl
    have hnil : l = [] := List.length_eq_zero.mp (by omega)
    subst hnil
    rfl
  | succ fuel ih =>
    intro l hl
    match l with
    | [] => rfl
    | x :: xs =>
      show ((x :: xs).take k :: chunksOfAux fuel k ((x :: xs).drop k)).flatten = x :: xs
      rw [List.flatten_cons, ih ((x :: xs).drop k) ?_]
      · exact List.take_append_drop k (x :: xs)
      · rw [List.length_drop]
        simp only [List.length_cons] at hl ⊢
        omega

theorem chunksOf_flatten (k : Nat) (hk : k ≠ 0) (l : List String) :
    (chunksOf k l).flatten = l :=
  chunksOfAux_flatten k hk l.length l le_rfl

theorem mem_chunksOfAux (k : Nat) (hk : k ≠ 0) :
    ∀ (fuel : Nat) (l : List String) (b : List String), b ∈ chunksOfAux fuel k l →
      b.length ≤ k ∧ b ≠ [] := by
  intro fuel
  induction fuel with
  | zero =>
    intro l b hb
    cases hb
  | succ fuel ih =>
    intro l b hb
    match l with
    | [] => cases hb
    | x :: xs =>
      rcases List.mem_cons.mp hb with heq | hmem
      · subst heq
        constructor
        · rw [List.length_take]
          omega
        · match k, hk with
          | k' + 1, _ =>
            rw [List.take_succ_cons]
            exact List.cons_ne_nil x (List.take k' xs)
      · exact ih ((x :: xs).drop k) b hmem

theorem eq_of_mem_of_pairwise_disjoint {α : Type} (L : List (List α))
    (h : L.Pairwise List.Disjoint) :
    ∀ b1 ∈ L, ∀ b2 ∈ L, ∀ x, x ∈ b1 → x ∈ b2 → b1 = b2 := by
  induction L with
  | nil => simp
  | cons a L ih =>
    obtain ⟨ha, hL⟩ := List.pairwise_cons.mp h
    intro b1 hb1 b2 hb2 x hx1 hx2
    rcases List.mem_cons.mp hb1 with h1 | h1
    · rcases List.mem_cons.mp hb2 with h2 | h2
      · rw [h1, h2]
      · rw [h1] at hx1
        exact (ha b2 h2 hx1 hx2).elim
    · rcases List.mem_cons.mp hb2 with h2 | h2
      · rw [h2] at hx2
        exact (ha b1 h1 hx2 hx1).elim
      · exact ih hL b1 h1 b2 h2 x hx1 hx2

theorem chunksOf_ne_nil (k : Nat) (l : List String) (hl : l ≠ []) :
    chunksOf k l ≠ [] := by
  match l, hl with
  | x :: xs, _ =>
    show chunksOfAux (x :: xs).length k (x :: xs) ≠ []
    rw [List.length_cons]
    exact List.cons_ne_nil _ _

/-- C9 (amended): for every nonempty duplicate-free list of requested trip
ids, fetch_stop_times_from_gtfs slices the ids into consecutive batches of
at most MAX_QUERY_DEPTH, the batches concatenate back to exactly the
request (so each requested id lies in exactly one batch), each per-batch
query only returns rows whose trip_id is in that batch, and the function
returns the concatenation of the per-batch query results. -/
theorem c9_fetch_batching_amended (stop_times : List StopTime) (trips : List Trip)
    (trip_ids : List String) (hne : trip_ids ≠ []) (hnd : trip_ids.Nodup) :
    (∀ b ∈ chunksOf MAX_QUERY_DEPTH trip_ids, b.length ≤ MAX_QUERY_DEPTH ∧ b ≠ []) ∧
    (chunksOf MAX_QUERY_DEPTH trip_ids).flatten = trip_ids ∧
    (∀ s ∈ trip_ids, ∃! b, b ∈ chunksOf MAX_QUERY_DEPTH trip_ids ∧ s ∈ b) ∧
    fetch_stop_times_from_gtfs (.ok (stop_times, trips)) trip_ids =
      .ok (((chunksOf MAX_QUERY_DEPTH trip_ids).map
        (query_stop_times_batch stop_times trips)).flatten) ∧
    (∀ b : List String, ∀ row ∈ query_stop_times_batch stop_times trips b,
      row.trip_id ∈ b) := by
  have hk : MAX_QUERY_DEPTH ≠ 0 := by decide
  have hflat := chunksOf_flatten MAX_QUERY_DEPTH hk trip_ids
  refine ⟨?_, hflat, ?_, ?_, ?_⟩
  · intro b hb
    exact mem_chunksOfAux MAX_QUERY_DEPTH hk trip_ids.length trip_ids b hb
  · intro s hs
    have hnodup : (chunksOf MAX_QUERY_DEPTH trip_ids).flatten.Nodup := by
      rw [hflat]
      exact hnd
    have hdisj := (List.nodup_flatten.mp hnodup).2
    have hsmem : s ∈ (chunksOf MAX_QUERY_DEPTH trip_ids).flatten := by
      rw [hflat]
      exact hs
    obtain ⟨b, hb, hsb⟩ := List.mem_flatten.mp hsmem
    refine ⟨b, ⟨hb, hsb⟩, ?_⟩
    rintro b2 ⟨hb2, hsb2⟩
    exact eq_of_mem_of_pairwise_disjoint _ hdisj b2 hb2 b hb s hsb2 hsb
  · show (do
      let (st, tr) ← (Except.ok (stop_times, trips) :
        Except String (List StopTime × List Trip))
      pd_concat ((chunksOf MAX_QUERY_DEPTH trip_ids).map (query_stop_times_batch st tr)))
        = _
    show pd_concat ((chunksOf MAX_QUERY_DEPTH trip_ids).map
      (query_stop_times_batch stop_times trips)) = _
    unfold pd_concat
    rw [if_neg ?_]
    intro hcontra
    have : (chunksOf MAX_QUERY_DEPTH trip_ids).map
        (query_stop_times_batch stop_times trips) = [] := by
      rwa [List.isEmpty_iff] at hcontra
    have h2 : chunksOf MAX_QUERY_DEPTH trip_ids = [] := by
      cases hc : chunksOf MAX_QUERY_DEPTH trip_ids with
      | nil => rfl
      | cons a L =>
        rw [hc] at this
        cases this
    exact chunksOf_ne_nil MAX_QUERY_DEPTH trip_ids hne h2
  · intro b row hrow
    obtain ⟨st, hst, hmap⟩ := List.mem_flatMap.mp hrow
    obtain ⟨t, _, heq⟩ := List.mem_map.mp hmap
    have hcontains : b.contains st.trip_id = true := (List.mem_filter.mp hst).2
    have : row.trip_id = st.trip_id := by
      rw [← heq]
    rw [this]
    exact List.elem_iff.mp hcontains

/-- C9 counterexample: on an empty trip id list the loop issues no queries
and pd.concat raises a ValueError instead of returning a concatenation. -/
theorem c9_fetch_batching_counterexample :
    fetch_stop_times_from_gtfs (.ok (([] : List StopTime), ([] : List Trip))) [] =
      .error ("No objects to concatenate") := rfl

/-- C9 witness: the amended batching theorem applied to a one-id request
against a one-row schedule store. -/
theorem c9_fetch_batching_witness :
    (∀ b ∈ chunksOf MAX_QUERY_DEPTH ["t1"], b.length ≤ MAX_QUERY_DEPTH ∧ b ≠ []) ∧
    (chunksOf MAX_QUERY_DEPTH ["t1"]).flatten = ["t1"] ∧
    (∀ s ∈ ["t1"], ∃! b, b ∈ chunksOf MAX_QUERY_DEPTH ["t1"] ∧ s ∈ b) ∧
    fetch_stop_times_from_gtfs
        (.ok (([⟨"t1", "s1", 5⟩] : List StopTime), ([⟨"t1", "Orange", 0⟩] : List Trip)))
        ["t1"] =
      .ok (((chunksOf MAX_QUERY_DEPTH ["t1"]).map
        (query_stop_times_batch [⟨"t1", "s1", 5⟩] [⟨"t1", "Orange", 0⟩])).flatten) ∧
    (∀ b : List String,
      ∀ row ∈ query_stop_times_batch [⟨"t1", "s1", 5⟩] [⟨"t1", "Orange", 0⟩] b,
        row.trip_id ∈ b) :=
  c9_fetch_batching_amended [⟨"t1", "s1", 5⟩] [⟨"t1", "Orange", 0⟩] ["t1"]
    (by decide) (by decide)

theorem recalc_feed_error (loc : Int → Int) (msg : String) (pq : List Event) :
    _recalculate_fields_from_gtfs loc (.error msg) pq = .error msg := by
  simp [_recalculate_fields_from_gtfs, fetch_stop_times_from_gtfs, Bind.bind, Except.bind]

/-- C2 (amended): a failure to download or build the schedule feed during
GTFS enrichment propagates out of ingest_pq_file, so ingest_lamp_data
logs it and re-raises: the day's run aborts and no arrival/departure
events are written (outcome .error). Only a ValueError while fetching the
LAMP parquet file itself is swallowed, skipping the day (.ok none). -/
theorem c2_gtfs_failure_aborts_day (loc : Int → Int) (msg : String)
    (pq_rows : List LampRow) (fmsg : String) :
    ingest_lamp_data loc (.error msg) (.ok pq_rows) = .error msg ∧
    ingest_lamp_data loc (.error msg) (.error (.valueError fmsg)) = .ok none := by
  constructor
  · show (match ingest_pq_file loc (.error msg) pq_rows with
      | .error e => (.error e : Except String (Option (List Event)))
      | .ok evs => .ok (some evs)) = .error msg
    have hing : ingest_pq_file loc (.error msg) pq_rows = .error msg := by
      simp [ingest_pq_file, recalc_feed_error, Bind.bind, Except.bind]
    rw [hing]
  · rfl

/-- C2 counterexample: with a concrete one-row LAMP table and a schedule
feed whose download or build fails, the day aborts with the propagated
error instead of writing the events with null schedule columns. -/
theorem c2_gtfs_failure_counterexample :
    ingest_lamp_data (fun s => s) (.error ("Failed to download or build GTFS feed"))
      (.ok [c2SampleLampRow]) = .error ("Failed to download or build GTFS feed") := rfl

theorem event_column_isSome (e : Event) (c : String) :
    ((Event.column e c).isSome = true ↔ c ∈ S3_COLUMNS) := by
  have hnames : (Event.columns e).map Prod.fst = S3_COLUMNS := rfl
  unfold Event.column
  rw [Option.isSome_map', List.find?_isSome]
  constructor
  · rintro ⟨p, hp, hpc⟩
    have hc : p.1 = c := beq_iff_eq.mp hpc
    have hmem : p.1 ∈ (Event.columns e).map Prod.fst := List.mem_map_of_mem _ hp
    rw [hc, hnames] at hmem
    exact hmem
  · intro hc
    have hmem : c ∈ (Event.columns e).map Prod.fst := by
      rw [hnames]
      exact hc
    obtain ⟨p, hp, hpc⟩ := List.mem_map.mp hmem
    exact ⟨p, hp, beq_iff_eq.mpr hpc⟩

/-- C10: whenever ingest_pq_file succeeds, the finalized event table is in
non-decreasing event_time order, and each of its rows carries exactly the
S3_COLUMNS column set, for every raw input table regardless of its row
order or extra columns. -/
theorem c10_output_sorted_and_columns (loc : Int → Int)
    (feed : Except String (List StopTime × List Trip)) (raw : List LampRow)
    (out : List Event) (h : ingest_pq_file loc feed raw = .ok out) :
    List.Pairwise (fun a b => a.event_time ≤ b.event_time) out ∧
    ∀ e ∈ out, ∀ c : String, ((Event.column e c).isSome = true ↔ c ∈ S3_COLUMNS) := by
  have hform : ∃ p2, out = sortBy (fun a b => a.event_time ≤ b.event_time)
      (_average_scheduled_headways loc p2) := by
    simp only [ingest_pq_file] at h
    obtain ⟨p2, _, hpure⟩ := (except_bind_ok _ _ _).mp h
    refine ⟨p2, ?_⟩
    simp only [pure, Except.pure] at hpure
    injection hpure with h2
    rw [h2]
  obtain ⟨p2, hout⟩ := hform
  constructor
  · rw [hout]
    have htrans : ∀ a b c : Event, (decide (a.event_time ≤ b.event_time)) = true →
        (decide (b.event_time ≤ c.event_time)) = true →
        (decide (a.event_time ≤ c.event_time)) = true := by
      intro a b c hab hbc
      simp only [decide_eq_true_eq] at hab hbc ⊢
      omega
    have htotal : ∀ a b : Event, (decide (a.event_time ≤ b.event_time)) = true ∨
        (decide (b.event_time ≤ a.event_time)) = true := by
      intro a b
      simp only [decide_eq_true_eq]
      omega
    have hpw := sortBy_pairwise (fun a b : Event => decide (a.event_time ≤ b.event_time))
      htrans htotal (_average_scheduled_headways loc p2)
    exact hpw.imp (fun hab => by simpa using hab)
  · intro e _ c
    exact event_column_isSome e c

/-- C10 witness: the finalized-output theorem applied to the concrete
one-row ingest run. -/
theorem c10_output_sorted_and_columns_witness :
    List.Pairwise (fun a b => a.event_time ≤ b.event_time) c10SampleOut ∧
    ∀ e ∈ c10SampleOut, ∀ c : String,
      ((Event.column e c).isSome = true ↔ c ∈ S3_COLUMNS) :=
  c10_output_sorted_and_columns (fun s => s) c10Feed [c2SampleLampRow] c10SampleOut rfl
